import Mathlib

/-!
# Temperature / humidity indicator: the operational state machine of `main.c`

A shallow embedding of the `for(;;) switch(fsm_state)` loop of `src/src/main.c`
(lines 146-236) together with the locals of `main` (lines 94-102) and the
period macros (lines 50-62).

* The locals of `main` are the fields of `MainState`.
* One iteration of the `for(;;)` loop is `step`; it receives the answers the
  collaborators (`BSP_*`) would give in that iteration as a `Collab` record and
  returns the new locals together with the list of external calls it made.
* The model starts where the loop is entered (line 146), that is after the LCD
  start-up sequence and after `BSP_init` has returned 0 (line 135).
* `error_handler` never returns (`for(;;);`): the field `halted` records that
  control is inside it, and a halted state steps to itself without any call.
* `uint32_t` counters are naturals with explicit `% 2 ^ 32` at each increment;
  the `uint8_t error` local stores the returned code `% 2 ^ 8`.
* Of the sleep scheduler only the macros and prototypes of `src/inc/delay.h` are
  available; its wait loop is modelled from section 4.1 of the specification
  (`sleepTicks`, `sleepLoop`, `sleep_s`, `sleep_ms`).
-/

namespace TRH

/-! ## Configuration macros (main.c, lines 50-62) -/

/-- Update period for the LCD in seconds: `DISPLAY_TIME_S (3UL)`. -/
def DISPLAY_TIME_S : Nat := 3
/-- Refresh data (T and RH) in seconds: `REFRESH_DATA_S (60UL)`. -/
def REFRESH_DATA_S : Nat := 60
/-- Light checking period in minutes: `LIGHT_CHECK_MIN (5UL)`. -/
def LIGHT_CHECK_MIN : Nat := 5
/-- Checking battery period in hours: `BAT_CHECK_HOURS (24UL)`. -/
def BAT_CHECK_HOURS : Nat := 24
/-- Ambient light threshold: `LIGHTSENSOR_LEVEL (880u)`. -/
def LIGHTSENSOR_LEVEL : Nat := 880
/-- Low battery voltage in mV: `BATTERY_mV (2200UL)`. -/
def BATTERY_mV : Nat := 2200

/-- The macro `(uint32_t) (LIGHT_CHECK_MIN*60UL / DISPLAY_TIME_S)`. -/
def LIGHT_CHECK_PERIOD : Nat := (LIGHT_CHECK_MIN * 60 / DISPLAY_TIME_S) % 2 ^ 32
/-- The macro `(uint32_t) (BAT_CHECK_HOURS*60UL*60UL / DISPLAY_TIME_S)`. -/
def BAT_CHECK_PERIOD : Nat := (BAT_CHECK_HOURS * 60 * 60 / DISPLAY_TIME_S) % 2 ^ 32
/-- The macro `(uint32_t) (REFRESH_DATA_S / DISPLAY_TIME_S)`. -/
def REFRESH_DATA_PERIOD : Nat := (REFRESH_DATA_S / DISPLAY_TIME_S) % 2 ^ 32
/-- The macro `(uint16_t) ((1224UL * 1024UL) / BATTERY_mV)`. -/
def LOWBAT_RAW : Nat := ((1224 * 1024) / BATTERY_mV) % 2 ^ 16

/-! ## Types -/

/-- The enumeration `fsm_enum` of main.c (lines 65-74), in declaration order. -/
inductive fsm_enum
  | PowerUp
  | CheckLight
  | CheckShowConfig
  | CheckBattery
  | MeasureRH
  | MeasureT
  | SleepDay
  | SleepNight
  deriving DecidableEq, Repr

/-- Modelled from the spec: the type `DisplConfig` is declared in
`trh_indicator_bsp.h`, which is not among the sources; main.c uses its three
values `SHOW_T_RH`, `SHOW_ONLY_T` and `SHOW_ONLY_RH`, the tri-state
`{ShowBoth, ShowTemperatureOnly, ShowHumidityOnly}` of the specification. -/
inductive DisplConfig
  | SHOW_T_RH
  | SHOW_ONLY_T
  | SHOW_ONLY_RH
  deriving DecidableEq, Repr

/-- Modelled from the spec: the type `ShowValueType` is declared in
`trh_indicator_bsp.h`, which is not among the sources; main.c uses its two
values `REFRESH_VALUE` (ForceRefresh) and `USE_OLD_VALUE` (UseCachedValue). -/
inductive ShowValueType
  | REFRESH_VALUE
  | USE_OLD_VALUE
  deriving DecidableEq, Repr

/-- The first argument of `error_handler` at its two call sites in the loop. -/
inductive ErrStr
  /-- The literal `" T read err "` (line 188). -/
  | T_read_err
  /-- The literal `" RH read err "` (line 196). -/
  | RH_read_err
  deriving DecidableEq, Repr

/-- The calls the loop makes to code outside `main`, with their arguments and,
for the collaborators that return something, the returned value.  The constant
argument `NO_DECIMAL` of `BSP_showT` / `BSP_showRH` is not recorded. -/
inductive Event
  | BSP_checkAmbientLight (level : Nat) (ret : Bool)
  | TRH_LCD_Control (state : Bool)
  | BSP_testBattery (raw : Nat) (ret : Bool)
  | TRH_LCD_DisplayLowBat (low_bat : Bool)
  | BSP_getShowMode (ret : DisplConfig)
  | BSP_showT (isNeedRefresh : ShowValueType) (ret : Nat)
  | BSP_showRH (isNeedRefresh : Option ShowValueType) (ret : Nat)
  | sleep_s (time_s : Nat)
  | error_handler (str : ErrStr) (err_num : Nat)
  deriving DecidableEq, Repr

/-- The locals of `main` (lines 94-102).  `showConfig` and `isNeedRefresh` are
declared without an initial value: `none` stands for "not yet assigned".
`halted` is true once `error_handler` has been entered. -/
structure MainState where
  error : Nat
  showConfig : Option DisplConfig
  batCheckCnt : Nat
  lightChkCnt : Nat
  refreshDataCnt : Nat
  fsm_state : fsm_enum
  lightCheck : Bool
  lightPrevious : Bool
  dataShowEnd : Bool
  isNeedRefresh : Option ShowValueType
  halted : Bool
  deriving DecidableEq, Repr

/-- What the collaborators answer when called during one loop iteration. -/
structure Collab where
  /-- Return value of `BSP_checkAmbientLight`: `true` is light, `false` dark. -/
  light : Bool
  /-- Return value of `BSP_testBattery`. -/
  batLow : Bool
  /-- Return value of `BSP_getShowMode`. -/
  mode : DisplConfig
  /-- Return value of `BSP_showT`. -/
  errT : Nat
  /-- Return value of `BSP_showRH`. -/
  errRH : Nat
  deriving DecidableEq, Repr

/-- The locals when the loop is entered (declarations at lines 94-102 and
`fsm_state = PowerUp` at line 141). -/
def init : MainState :=
  { error := 0
    showConfig := none
    batCheckCnt := 0
    lightChkCnt := 0
    refreshDataCnt := 0
    fsm_state := fsm_enum.PowerUp
    lightCheck := true
    lightPrevious := true
    dataShowEnd := false
    isNeedRefresh := none
    halted := false }

/-! ## One loop iteration -/

/-- `case (CheckLight)`, lines 152-165. -/
def caseCheckLight (c : Collab) (s : MainState) : MainState × List Event :=
  let s1 := { s with fsm_state := fsm_enum.CheckBattery }
  if LIGHT_CHECK_PERIOD ≤ s1.lightChkCnt then
    let s2 := { s1 with lightChkCnt := 0, lightCheck := c.light }
    let ev1 := [Event.BSP_checkAmbientLight (LIGHTSENSOR_LEVEL % 2 ^ 16) c.light]
    let r3 : MainState × List Event :=
      if s2.lightCheck ≠ s2.lightPrevious then
        ({ s2 with lightPrevious := s2.lightCheck }, [Event.TRH_LCD_Control s2.lightCheck])
      else (s2, [])
    let s4 := if r3.1.lightCheck = false then { r3.1 with fsm_state := fsm_enum.SleepNight } else r3.1
    (s4, ev1 ++ r3.2)
  else (s1, [])

/-- `case (CheckBattery)`, lines 168-174. -/
def caseCheckBattery (c : Collab) (s : MainState) : MainState × List Event :=
  let r1 : MainState × List Event :=
    if BAT_CHECK_PERIOD ≤ s.batCheckCnt then
      ({ s with batCheckCnt := 0 },
        [Event.BSP_testBattery LOWBAT_RAW c.batLow, Event.TRH_LCD_DisplayLowBat c.batLow])
    else (s, [])
  ({ r1.1 with fsm_state := fsm_enum.CheckShowConfig }, r1.2)

/-- `case (CheckShowConfig)`, lines 177-181. -/
def caseCheckShowConfig (c : Collab) (s : MainState) : MainState × List Event :=
  ({ s with showConfig := some c.mode, dataShowEnd := false, fsm_state := fsm_enum.MeasureT },
    [Event.BSP_getShowMode c.mode])

/-- `case (MeasureT)`, lines 184-191.  A non-zero `error` enters `error_handler`,
which does not return, so the assignment `fsm_state = SleepDay` is not reached. -/
def caseMeasureT (c : Collab) (s : MainState) : MainState × List Event :=
  let flag := if REFRESH_DATA_PERIOD ≤ s.refreshDataCnt then ShowValueType.REFRESH_VALUE
              else ShowValueType.USE_OLD_VALUE
  let s1 := { s with isNeedRefresh := some flag }
  if s1.showConfig ≠ some DisplConfig.SHOW_ONLY_RH then
    let s2 := { s1 with error := c.errT % 2 ^ 8 }
    if s2.error ≠ 0 then
      ({ s2 with halted := true },
        [Event.BSP_showT flag c.errT, Event.error_handler ErrStr.T_read_err s2.error])
    else
      ({ s2 with fsm_state := fsm_enum.SleepDay }, [Event.BSP_showT flag c.errT])
  else
    ({ s1 with fsm_state := fsm_enum.SleepDay }, [])

/-- `case (MeasureRH)`, lines 194-200. -/
def caseMeasureRH (c : Collab) (s : MainState) : MainState × List Event :=
  if s.showConfig ≠ some DisplConfig.SHOW_ONLY_T then
    let s2 := { s with error := c.errRH % 2 ^ 8 }
    if s2.error ≠ 0 then
      ({ s2 with halted := true },
        [Event.BSP_showRH s.isNeedRefresh c.errRH,
         Event.error_handler ErrStr.RH_read_err s2.error])
    else
      ({ s2 with dataShowEnd := true, fsm_state := fsm_enum.SleepDay },
        [Event.BSP_showRH s.isNeedRefresh c.errRH])
  else
    ({ s with dataShowEnd := true, fsm_state := fsm_enum.SleepDay }, [])

/-- `case (SleepDay)`, lines 203-215. -/
def caseSleepDay (s : MainState) : MainState × List Event :=
  let s1 :=
    if s.dataShowEnd then
      let t := { s with fsm_state := fsm_enum.CheckLight }
      if REFRESH_DATA_PERIOD < t.refreshDataCnt then { t with refreshDataCnt := 0 } else t
    else { s with fsm_state := fsm_enum.MeasureRH }
  let s2 := { s1 with lightChkCnt := (s1.lightChkCnt + 1) % 2 ^ 32 }
  let s3 := { s2 with batCheckCnt := (s2.batCheckCnt + 1) % 2 ^ 32 }
  let s4 := { s3 with refreshDataCnt := (s3.refreshDataCnt + 1) % 2 ^ 32 }
  (s4, [Event.sleep_s (DISPLAY_TIME_S % 2 ^ 32)])

/-- `case (SleepNight)`, lines 218-223. -/
def caseSleepNight (s : MainState) : MainState × List Event :=
  ({ s with lightChkCnt := LIGHT_CHECK_PERIOD, batCheckCnt := BAT_CHECK_PERIOD,
            fsm_state := fsm_enum.CheckLight },
    [Event.sleep_s (DISPLAY_TIME_S % 2 ^ 32)])

/-- `case (PowerUp): default:`, lines 225-234. -/
def casePowerUp (c : Collab) (s : MainState) : MainState × List Event :=
  ({ s with showConfig := some DisplConfig.SHOW_T_RH, dataShowEnd := false,
            lightChkCnt := 0, batCheckCnt := 0, refreshDataCnt := REFRESH_DATA_PERIOD,
            fsm_state := fsm_enum.MeasureT },
    [Event.BSP_testBattery LOWBAT_RAW c.batLow, Event.TRH_LCD_DisplayLowBat c.batLow])

/-- One iteration of `for(;;) { switch(fsm_state) ... }` (lines 146-236).  Once
`error_handler` has been entered nothing more happens. -/
def step (c : Collab) (s : MainState) : MainState × List Event :=
  if s.halted then (s, [])
  else
    match s.fsm_state with
    | fsm_enum.CheckLight => caseCheckLight c s
    | fsm_enum.CheckBattery => caseCheckBattery c s
    | fsm_enum.CheckShowConfig => caseCheckShowConfig c s
    | fsm_enum.MeasureT => caseMeasureT c s
    | fsm_enum.MeasureRH => caseMeasureRH c s
    | fsm_enum.SleepDay => caseSleepDay s
    | fsm_enum.SleepNight => caseSleepNight s
    | fsm_enum.PowerUp => casePowerUp c s

/-- The locals after `n` loop iterations, iteration `i` being answered by `env i`. -/
def run (env : Nat → Collab) : Nat → MainState
  | 0 => init
  | n + 1 => (step (env n) (run env n)).1

/-- The external calls made during iteration `n` (the one leaving `run env n`). -/
def events (env : Nat → Collab) (n : Nat) : List Event :=
  (step (env n) (run env n)).2

/-- A collaborator environment of uninterrupted daylight: light, battery good,
both values shown, no error. -/
def dayEnv : Nat → Collab :=
  fun _ => { light := true, batLow := false, mode := DisplConfig.SHOW_T_RH, errT := 0, errRH := 0 }

/-- A collaborator environment in which every light reading is dark. -/
def nightEnv : Nat → Collab :=
  fun _ => { light := false, batLow := false, mode := DisplConfig.SHOW_T_RH, errT := 0, errRH := 0 }

/-- A collaborator environment that is dark at iteration 348 only. -/
def dawnEnv : Nat → Collab :=
  fun i => { light := decide (i ≠ 348), batLow := false, mode := DisplConfig.SHOW_T_RH,
             errT := 0, errRH := 0 }

/-- A collaborator environment in which both display calls report error 7. -/
def faultEnv : Nat → Collab :=
  fun _ => { light := true, batLow := false, mode := DisplConfig.SHOW_T_RH, errT := 7, errRH := 7 }

/-- A collaborator environment in which only humidity is to be shown. -/
def rhOnlyEnv : Nat → Collab :=
  fun _ => { light := true, batLow := false, mode := DisplConfig.SHOW_ONLY_RH, errT := 0, errRH := 0 }

/-- A collaborator environment in which only temperature is to be shown. -/
def tOnlyEnv : Nat → Collab :=
  fun _ => { light := true, batLow := false, mode := DisplConfig.SHOW_ONLY_T, errT := 0, errRH := 0 }

/-! ## Observations on the calls of one iteration -/

/-- The call is `BSP_checkAmbientLight`. -/
def Event.isLightRead : Event → Bool
  | Event.BSP_checkAmbientLight _ _ => true
  | _ => false

/-- The call is `TRH_LCD_Control`. -/
def Event.isLcdControl : Event → Bool
  | Event.TRH_LCD_Control _ => true
  | _ => false

/-- The call is `BSP_testBattery`. -/
def Event.isTestBattery : Event → Bool
  | Event.BSP_testBattery _ _ => true
  | _ => false

/-- The call is `TRH_LCD_DisplayLowBat`. -/
def Event.isDisplayLowBat : Event → Bool
  | Event.TRH_LCD_DisplayLowBat _ => true
  | _ => false

/-- The call is `BSP_showT`. -/
def Event.isShowT : Event → Bool
  | Event.BSP_showT _ _ => true
  | _ => false

/-- The call is `BSP_showRH`. -/
def Event.isShowRH : Event → Bool
  | Event.BSP_showRH _ _ => true
  | _ => false

/-- The value `isNeedRefresh` receives in `MeasureT` when the refresh counter is `r`
(lines 185-186). -/
def refreshFlag (r : Nat) : ShowValueType :=
  if REFRESH_DATA_PERIOD ≤ r then ShowValueType.REFRESH_VALUE else ShowValueType.USE_OLD_VALUE

/-! ## The transition table of the specification -/

/-- The "Next" column of the transition table of the specification (section 4.3),
written from its words: `darkReading` says that a light reading was taken in this
step and it is dark, `cycleComplete` is the "cycle complete" flag. -/
def tableNext (st : fsm_enum) (darkReading cycleComplete : Bool) : fsm_enum :=
  match st with
  | fsm_enum.PowerUp => fsm_enum.MeasureT
  | fsm_enum.CheckLight => if darkReading then fsm_enum.SleepNight else fsm_enum.CheckBattery
  | fsm_enum.CheckBattery => fsm_enum.CheckShowConfig
  | fsm_enum.CheckShowConfig => fsm_enum.MeasureT
  | fsm_enum.MeasureT => fsm_enum.SleepDay
  | fsm_enum.MeasureRH => fsm_enum.SleepDay
  | fsm_enum.SleepDay => if cycleComplete then fsm_enum.CheckLight else fsm_enum.MeasureRH
  | fsm_enum.SleepNight => fsm_enum.CheckLight

/-! ## The loop invariant -/

/-- The state-indexed invariant of the loop: parity and bounds of the three
counters, agreement of the two light variables, and which locals are assigned. -/
def Inv (s : MainState) : Prop :=
  s.lightPrevious = s.lightCheck ∧
  (s.halted = true → s.fsm_state = fsm_enum.MeasureT ∨ s.fsm_state = fsm_enum.MeasureRH) ∧
  match s.fsm_state with
  | fsm_enum.PowerUp => s = init
  | fsm_enum.CheckLight =>
      s.lightChkCnt % 2 = 0 ∧ s.lightChkCnt ≤ LIGHT_CHECK_PERIOD ∧
      s.batCheckCnt % 2 = 0 ∧ s.batCheckCnt ≤ BAT_CHECK_PERIOD ∧
      s.refreshDataCnt % 2 = 1 ∧ s.refreshDataCnt ≤ REFRESH_DATA_PERIOD + 1 ∧
      s.showConfig.isSome = true ∧
      (s.lightChkCnt < LIGHT_CHECK_PERIOD → s.lightCheck = true)
  | fsm_enum.SleepNight =>
      s.lightChkCnt = 0 ∧
      s.batCheckCnt % 2 = 0 ∧ s.batCheckCnt ≤ BAT_CHECK_PERIOD ∧
      s.refreshDataCnt % 2 = 1 ∧ s.refreshDataCnt ≤ REFRESH_DATA_PERIOD + 1 ∧
      s.showConfig.isSome = true ∧ s.lightCheck = false
  | fsm_enum.CheckBattery =>
      s.lightChkCnt % 2 = 0 ∧ s.lightChkCnt + 2 ≤ LIGHT_CHECK_PERIOD ∧
      s.batCheckCnt % 2 = 0 ∧ s.batCheckCnt ≤ BAT_CHECK_PERIOD ∧
      s.refreshDataCnt % 2 = 1 ∧ s.refreshDataCnt ≤ REFRESH_DATA_PERIOD + 1 ∧
      s.showConfig.isSome = true ∧ s.lightCheck = true
  | fsm_enum.CheckShowConfig =>
      s.lightChkCnt % 2 = 0 ∧ s.lightChkCnt + 2 ≤ LIGHT_CHECK_PERIOD ∧
      s.batCheckCnt % 2 = 0 ∧ s.batCheckCnt + 2 ≤ BAT_CHECK_PERIOD ∧
      s.refreshDataCnt % 2 = 1 ∧ s.refreshDataCnt ≤ REFRESH_DATA_PERIOD + 1 ∧
      s.showConfig.isSome = true ∧ s.lightCheck = true
  | fsm_enum.MeasureT =>
      s.lightChkCnt % 2 = 0 ∧ s.lightChkCnt + 2 ≤ LIGHT_CHECK_PERIOD ∧
      s.batCheckCnt % 2 = 0 ∧ s.batCheckCnt + 2 ≤ BAT_CHECK_PERIOD ∧
      (s.refreshDataCnt = REFRESH_DATA_PERIOD ∨ s.refreshDataCnt % 2 = 1) ∧
      s.refreshDataCnt ≤ REFRESH_DATA_PERIOD + 1 ∧
      s.showConfig.isSome = true ∧ s.lightCheck = true ∧ s.dataShowEnd = false
  | fsm_enum.SleepDay =>
      s.showConfig.isSome = true ∧ s.lightCheck = true ∧
      if s.dataShowEnd = true then
        s.lightChkCnt % 2 = 1 ∧ s.lightChkCnt + 1 ≤ LIGHT_CHECK_PERIOD ∧
        s.batCheckCnt % 2 = 1 ∧ s.batCheckCnt + 1 ≤ BAT_CHECK_PERIOD ∧
        (s.refreshDataCnt = REFRESH_DATA_PERIOD + 1 ∨ s.refreshDataCnt % 2 = 0) ∧
        s.refreshDataCnt ≤ REFRESH_DATA_PERIOD + 2 ∧
        s.isNeedRefresh = some (if REFRESH_DATA_PERIOD < s.refreshDataCnt
          then ShowValueType.REFRESH_VALUE else ShowValueType.USE_OLD_VALUE)
      else
        s.lightChkCnt % 2 = 0 ∧ s.lightChkCnt + 2 ≤ LIGHT_CHECK_PERIOD ∧
        s.batCheckCnt % 2 = 0 ∧ s.batCheckCnt + 2 ≤ BAT_CHECK_PERIOD ∧
        (s.refreshDataCnt = REFRESH_DATA_PERIOD ∨ s.refreshDataCnt % 2 = 1) ∧
        s.refreshDataCnt ≤ REFRESH_DATA_PERIOD + 1 ∧
        s.isNeedRefresh = some (if REFRESH_DATA_PERIOD ≤ s.refreshDataCnt
          then ShowValueType.REFRESH_VALUE else ShowValueType.USE_OLD_VALUE)
  | fsm_enum.MeasureRH =>
      s.lightChkCnt % 2 = 1 ∧ s.lightChkCnt + 1 ≤ LIGHT_CHECK_PERIOD ∧
      s.batCheckCnt % 2 = 1 ∧ s.batCheckCnt + 1 ≤ BAT_CHECK_PERIOD ∧
      (s.refreshDataCnt = REFRESH_DATA_PERIOD + 1 ∨ s.refreshDataCnt % 2 = 0) ∧
      s.refreshDataCnt ≤ REFRESH_DATA_PERIOD + 2 ∧
      s.showConfig.isSome = true ∧ s.lightCheck = true ∧ s.dataShowEnd = false ∧
      s.isNeedRefresh = some (if REFRESH_DATA_PERIOD < s.refreshDataCnt
        then ShowValueType.REFRESH_VALUE else ShowValueType.USE_OLD_VALUE)

/-! ## Daylight operation and the counting of SleepDay iterations -/

/-- Uninterrupted daylight operation: every light reading is light and neither
display collaborator reports an error. -/
def Daylight (env : Nat → Collab) : Prop :=
  ∀ i, (env i).light = true ∧ (env i).errT = 0 ∧ (env i).errRH = 0

/-- Iteration `i` reads the ambient light (the call at line 156). -/
def lightReadAt (env : Nat → Collab) (i : Nat) : Bool :=
  (events env i).any Event.isLightRead

/-- Iteration `i` is a CheckBattery step that tests the battery (the call at
line 170). -/
def batteryCheckAt (env : Nat → Collab) (i : Nat) : Bool :=
  decide ((run env i).fsm_state = fsm_enum.CheckBattery) && (events env i).any Event.isTestBattery

/-- Iteration `i` is a MeasureT step that computes `REFRESH_VALUE` (lines 185-186). -/
def forcedRefreshAt (env : Nat → Collab) (i : Nat) : Bool :=
  decide ((run env i).fsm_state = fsm_enum.MeasureT) && !(run env i).halted &&
    decide (REFRESH_DATA_PERIOD ≤ (run env i).refreshDataCnt)

/-- The number of SleepDay iterations executed before iteration `n` and after the
last iteration before `n` at which `fired` holds (since the start when there is
none). -/
def sleepDaysSince (env : Nat → Collab) (fired : Nat → Bool) : Nat → Nat
  | 0 => 0
  | n + 1 =>
      if fired n then 0
      else if (run env n).fsm_state = fsm_enum.SleepDay ∧ (run env n).halted = false then
        sleepDaysSince env fired n + 1
      else sleepDaysSince env fired n

/-! ## The display enable/disable calls of an execution -/

/-- The argument of a `TRH_LCD_Control` call. -/
def Event.lcdControlArg : Event → Option Bool
  | Event.TRH_LCD_Control b => some b
  | _ => none

/-- The arguments of the `TRH_LCD_Control` calls made during the first `n`
iterations, in order. -/
def lcdCalls (env : Nat → Collab) : Nat → List Bool
  | 0 => []
  | n + 1 => lcdCalls env n ++ (events env n).filterMap Event.lcdControlArg

/-! ## The sleep scheduler (delay.h) -/

/-- Measured LSI frequency in Hz: `TRH_LSI_FREQ_HZ ((uint32_t) 39500)`. -/
def TRH_LSI_FREQ_HZ : Nat := 39500 % 2 ^ 32
/-- The macro `WCNT_MAX_S ((uint32_t) 20)`. -/
def WCNT_MAX_S : Nat := 20 % 2 ^ 32
/-- The macro `WCNT_MAX_mS ((uint32_t) 3000)`. -/
def WCNT_MAX_mS : Nat := 3000 % 2 ^ 32

/-- Modelled from the spec: the tick count of a request (section 4.1),
`totalTicks = n * CalibratedRate / unitsPerSecondOrMillisecond` in truncating
integer arithmetic.  The bodies of `sleep_s` and `sleep_ms` (delay.c) are not
among the sources; only their prototypes are (delay.h, lines 59-60). -/
def sleepTicks (calibratedRate unitsPerSecond n : Nat) : Nat :=
  n * calibratedRate / unitsPerSecond

/-- Modelled from the spec: the wait loop of the sleep scheduler (section 4.1),
whose body (delay.c) is not among the sources: while `totalTicks > 0`, issue one
hardware wait of `min(totalTicks, TickBudget)` ticks and subtract the issued
amount.  The result is the list of issued tick counts, in order; `none` means
that the loop is still running after `fuel` iterations. -/
def sleepLoop (tickBudget : Nat) : Nat → Nat → Option (List Nat)
  | _, 0 => some []
  | 0, _ + 1 => none
  | fuel + 1, t + 1 =>
      let w := min (t + 1) tickBudget
      (sleepLoop tickBudget fuel (t + 1 - w)).map (fun ws => w :: ws)

/-- Modelled from the spec: `sleep_s(time_s)` (prototype at delay.h line 59, body
not among the sources) is the wait loop on the tick count of `time_s` seconds at
the calibrated rate `TRH_LSI_FREQ_HZ`. -/
def sleep_s (tickBudget fuel time_s : Nat) : Option (List Nat) :=
  sleepLoop tickBudget fuel (sleepTicks TRH_LSI_FREQ_HZ 1 time_s)

/-- Modelled from the spec: `sleep_ms(time_ms)` (prototype at delay.h line 60,
body not among the sources) is the wait loop on the tick count of `time_ms`
milliseconds at the calibrated rate `TRH_LSI_FREQ_HZ`. -/
def sleep_ms (tickBudget fuel time_ms : Nat) : Option (List Nat) :=
  sleepLoop tickBudget fuel (sleepTicks TRH_LSI_FREQ_HZ 1000 time_ms)

/-! ## Basic facts -/

theorem LIGHT_CHECK_PERIOD_eq : LIGHT_CHECK_PERIOD = 100 := by
  norm_num [LIGHT_CHECK_PERIOD, LIGHT_CHECK_MIN, DISPLAY_TIME_S]

theorem BAT_CHECK_PERIOD_eq : BAT_CHECK_PERIOD = 28800 := by
  norm_num [BAT_CHECK_PERIOD, BAT_CHECK_HOURS, DISPLAY_TIME_S]

theorem REFRESH_DATA_PERIOD_eq : REFRESH_DATA_PERIOD = 20 := by
  norm_num [REFRESH_DATA_PERIOD, REFRESH_DATA_S, DISPLAY_TIME_S]

theorem run_succ (env : Nat → Collab) (n : Nat) :
    run env (n + 1) = (step (env n) (run env n)).1 := rfl

/-! ## The invariant holds in every reachable configuration -/

theorem Inv_init : Inv init := by
  simp [Inv, init]

theorem Inv_step (c : Collab) (s : MainState) (h : Inv s) : Inv (step c s).1 := by
  obtain ⟨err, cfg, B, L, R, st, lc, lp, dse, inr, hlt⟩ := s
  cases hlt
  · cases st <;>
      simp only [step, casePowerUp, caseMeasureT, caseSleepDay, caseMeasureRH,
        caseCheckLight, caseCheckBattery, caseCheckShowConfig, caseSleepNight,
        REFRESH_DATA_PERIOD_eq, LIGHT_CHECK_PERIOD_eq, BAT_CHECK_PERIOD_eq,
        Bool.false_eq_true, if_false]
    case PowerUp =>
      simp [Inv, init] at h
      simp [Inv, h, REFRESH_DATA_PERIOD_eq, LIGHT_CHECK_PERIOD_eq, BAT_CHECK_PERIOD_eq]
    case SleepDay =>
      simp [Inv, REFRESH_DATA_PERIOD_eq, LIGHT_CHECK_PERIOD_eq, BAT_CHECK_PERIOD_eq] at h
      obtain ⟨rfl, h1, h2, h⟩ := h
      have e1 : (L + 1) % 4294967296 = L + 1 := by split_ifs at h <;> omega
      have e2 : (B + 1) % 4294967296 = B + 1 := by split_ifs at h <;> omega
      have e3 : (R + 1) % 4294967296 = R + 1 := by split_ifs at h <;> omega
      cases dse
      · simp [Inv, REFRESH_DATA_PERIOD_eq, LIGHT_CHECK_PERIOD_eq, BAT_CHECK_PERIOD_eq, h1, h2] at h ⊢
        rw [e1, e2, e3]
        simp [h]
        constructorm* _ ∧ _ <;> first | omega | (split_ifs <;> first | rfl | omega)
      · simp [Inv, REFRESH_DATA_PERIOD_eq, LIGHT_CHECK_PERIOD_eq, BAT_CHECK_PERIOD_eq, h1, h2] at h ⊢
        by_cases hR : 20 < R
        · simp [hR, h1, h2, e1, e2]; omega
        · simp [hR, h1, h2, e1, e2, e3]; omega
    case CheckLight =>
      simp [Inv, REFRESH_DATA_PERIOD_eq, LIGHT_CHECK_PERIOD_eq, BAT_CHECK_PERIOD_eq] at h
      obtain ⟨rfl, h⟩ := h
      by_cases hL : 100 ≤ L <;> cases hc : c.light <;> cases lp <;>
        simp [Inv, REFRESH_DATA_PERIOD_eq, LIGHT_CHECK_PERIOD_eq, BAT_CHECK_PERIOD_eq, hL, hc] at h ⊢ <;>
        (constructorm* _ ∧ _ <;> first | omega | simp [h])
    case CheckShowConfig =>
      simp [Inv, REFRESH_DATA_PERIOD_eq, LIGHT_CHECK_PERIOD_eq, BAT_CHECK_PERIOD_eq] at h ⊢
      obtain ⟨rfl, h⟩ := h
      simp [h]
    case SleepNight =>
      simp only [Inv, REFRESH_DATA_PERIOD_eq, LIGHT_CHECK_PERIOD_eq, BAT_CHECK_PERIOD_eq] at h ⊢
      obtain ⟨rfl, h⟩ := h
      simp only [true_and, Bool.false_eq_true, false_implies] at h ⊢
      constructorm* _ ∧ _ <;> first | omega | simp [h]
    all_goals
      split_ifs <;>
      simp [Inv, REFRESH_DATA_PERIOD_eq, LIGHT_CHECK_PERIOD_eq, BAT_CHECK_PERIOD_eq] at h ⊢ <;>
      obtain ⟨rfl, h⟩ := h <;> (try simp [h, *]) <;> (try omega)
  · simpa [step] using h

theorem Inv_run (env : Nat → Collab) (n : Nat) : Inv (run env n) := by
  induction n with
  | zero => exact Inv_init
  | succ k ih => exact Inv_step (env k) (run env k) ih


/-! ## C1: the first outer cycle -/

theorem range_nine : List.range 9 = [0, 1, 2, 3, 4, 5, 6, 7, 8] := by decide

/-- C1: starting in PowerUp, when the display collaborators report no error (and
whatever the battery, light and display-mode collaborators return), the first
nine states visited are PowerUp, MeasureT, SleepDay, MeasureRH, SleepDay,
CheckLight, CheckBattery, CheckShowConfig, MeasureT, and the refresh flag computed
in the first MeasureT (and passed to the temperature display call) is
REFRESH_VALUE. -/
theorem first_cycle_states (env : Nat → Collab)
    (hT : ∀ i, (env i).errT = 0) (hRH : ∀ i, (env i).errRH = 0) :
    (List.range 9).map (fun n => (run env n).fsm_state) =
      [fsm_enum.PowerUp, fsm_enum.MeasureT, fsm_enum.SleepDay, fsm_enum.MeasureRH,
       fsm_enum.SleepDay, fsm_enum.CheckLight, fsm_enum.CheckBattery,
       fsm_enum.CheckShowConfig, fsm_enum.MeasureT]
    ∧ (run env 2).isNeedRefresh = some ShowValueType.REFRESH_VALUE
    ∧ events env 1 = [Event.BSP_showT ShowValueType.REFRESH_VALUE 0] := by
  rw [range_nine]
  simp [events, run, step, init, casePowerUp, caseMeasureT, caseSleepDay, caseMeasureRH,
    caseCheckLight, caseCheckBattery, caseCheckShowConfig, hT, hRH,
    REFRESH_DATA_PERIOD_eq, LIGHT_CHECK_PERIOD_eq, BAT_CHECK_PERIOD_eq]

theorem first_cycle_states_witness :
    (∀ i, (dayEnv i).errT = 0) ∧ (∀ i, (dayEnv i).errRH = 0) ∧
    (List.range 9).map (fun n => (run dayEnv n).fsm_state) =
      [fsm_enum.PowerUp, fsm_enum.MeasureT, fsm_enum.SleepDay, fsm_enum.MeasureRH,
       fsm_enum.SleepDay, fsm_enum.CheckLight, fsm_enum.CheckBattery,
       fsm_enum.CheckShowConfig, fsm_enum.MeasureT]
    ∧ (run dayEnv 2).isNeedRefresh = some ShowValueType.REFRESH_VALUE
    ∧ events dayEnv 1 = [Event.BSP_showT ShowValueType.REFRESH_VALUE 0] :=
  ⟨fun _ => rfl, fun _ => rfl, first_cycle_states dayEnv (fun _ => rfl) (fun _ => rfl)⟩

/-! ## One-step facts used by several claims -/

theorem step_of_halted (c : Collab) (s : MainState) (h : s.halted = true) :
    step c s = (s, []) := by
  simp [step, h]

theorem halted_of_step_not_halted (c : Collab) (s : MainState)
    (h : (step c s).1.halted = false) : s.halted = false := by
  cases hs : s.halted
  · rfl
  · rw [step_of_halted c s hs] at h
    simp [hs] at h

theorem not_halted_of_state (s : MainState) (h : Inv s)
    (hst : s.fsm_state ≠ fsm_enum.MeasureT) (hst2 : s.fsm_state ≠ fsm_enum.MeasureRH) :
    s.halted = false := by
  cases hs : s.halted
  · rfl
  · rcases h.2.1 hs with h1 | h1
    · exact absurd h1 hst
    · exact absurd h1 hst2

theorem step_tableNext (c : Collab) (s : MainState) (h : (step c s).1.halted = false) :
    (step c s).1.fsm_state =
      tableNext s.fsm_state (decide (LIGHT_CHECK_PERIOD ≤ s.lightChkCnt) && !c.light)
        s.dataShowEnd := by
  obtain ⟨err, cfg, B, L, R, st, lc, lp, dse, inr, hlt⟩ := s
  cases hlt
  · cases st <;>
      simp only [step, casePowerUp, caseMeasureT, caseSleepDay, caseMeasureRH,
        caseCheckLight, caseCheckBattery, caseCheckShowConfig, caseSleepNight, tableNext,
        Bool.false_eq_true, if_false] at h ⊢
    case CheckLight =>
      by_cases hL : LIGHT_CHECK_PERIOD ≤ L <;> cases hc : c.light <;> cases lp <;> simp [hL, hc]
    case SleepDay => cases dse <;> simp <;> split_ifs <;> simp
    all_goals first | (split_ifs at h ⊢ <;> simp_all) | simp_all
  · simp [step] at h

theorem step_ne_PowerUp (c : Collab) (s : MainState) (h : s.halted = false) :
    (step c s).1.fsm_state ≠ fsm_enum.PowerUp := by
  obtain ⟨err, cfg, B, L, R, st, lc, lp, dse, inr, hlt⟩ := s
  simp only at h
  subst h
  cases st <;>
    simp only [step, casePowerUp, caseMeasureT, caseSleepDay, caseMeasureRH,
      caseCheckLight, caseCheckBattery, caseCheckShowConfig, caseSleepNight,
      Bool.false_eq_true, if_false]
  case CheckLight =>
    by_cases hL : LIGHT_CHECK_PERIOD ≤ L <;> cases hc : c.light <;> cases lp <;> simp [hL, hc]
  case SleepDay => cases dse <;> simp <;> split_ifs <;> simp
  all_goals first | (split_ifs <;> simp) | simp

theorem step_no_error (c : Collab) (s : MainState) (h : s.halted = false)
    (hT : c.errT = 0) (hRH : c.errRH = 0) : (step c s).1.halted = false := by
  obtain ⟨err, cfg, B, L, R, st, lc, lp, dse, inr, hlt⟩ := s
  simp only at h
  subst h
  cases st <;>
    simp only [step, casePowerUp, caseMeasureT, caseSleepDay, caseMeasureRH,
      caseCheckLight, caseCheckBattery, caseCheckShowConfig, caseSleepNight,
      Bool.false_eq_true, if_false, hT, hRH]
  case CheckLight =>
    by_cases hL : LIGHT_CHECK_PERIOD ≤ L <;> cases hc : c.light <;> cases lp <;> simp [hL, hc]
  case SleepDay => cases dse <;> simp <;> split_ifs <;> simp
  all_goals first | (split_ifs <;> simp_all) | simp_all

theorem run_ne_PowerUp (env : Nat → Collab) (n : Nat) :
    (run env (n + 1)).fsm_state ≠ fsm_enum.PowerUp := by
  induction n with
  | zero => simp [run, step, init, casePowerUp]
  | succ k ih =>
    rw [run_succ env (k + 1)]
    cases hh : (run env (k + 1)).halted
    · exact step_ne_PowerUp _ _ hh
    · rw [step_of_halted _ _ hh]
      exact ih

/-! ## C2: the transition table -/

/-- C2: in every reachable configuration one loop iteration that completes moves
along the edge of the transition table (PowerUp to MeasureT; CheckLight to
SleepNight when a light reading was taken in this step and is dark, else to
CheckBattery; CheckBattery to CheckShowConfig; CheckShowConfig to MeasureT;
MeasureT and MeasureRH to SleepDay; SleepDay to CheckLight when the cycle-complete
flag is set, else to MeasureRH; SleepNight to CheckLight); no step enters PowerUp,
which is occupied only initially; and absent a collaborator error the step
completes, so every state has a successor. -/
theorem fsm_follows_transition_table (env : Nat → Collab) (n : Nat) :
    ((run env (n + 1)).halted = false →
      (run env (n + 1)).fsm_state =
        tableNext (run env n).fsm_state
          (decide (LIGHT_CHECK_PERIOD ≤ (run env n).lightChkCnt) && !(env n).light)
          (run env n).dataShowEnd)
    ∧ (run env (n + 1)).fsm_state ≠ fsm_enum.PowerUp
    ∧ ((run env n).fsm_state = fsm_enum.PowerUp ↔ n = 0)
    ∧ ((run env n).halted = false → (env n).errT = 0 → (env n).errRH = 0 →
        (run env (n + 1)).halted = false) := by
  refine ⟨fun h => step_tableNext (env n) (run env n) h, run_ne_PowerUp env n, ?_,
    fun h hT hRH => step_no_error (env n) (run env n) h hT hRH⟩
  cases n with
  | zero => simp [run, init]
  | succ k => simpa using run_ne_PowerUp env k

theorem fsm_follows_transition_table_witness :
    (run dayEnv 4).fsm_state = fsm_enum.SleepDay
    ∧ (run dayEnv 4).dataShowEnd = true
    ∧ (run dayEnv 5).fsm_state = fsm_enum.CheckLight
    ∧ (run dayEnv 5).halted = false :=
  have h := fsm_follows_transition_table dayEnv 4
  ⟨by decide, by decide, (h.1 (by decide)).trans (by decide),
    h.2.2.2 (by decide) rfl rfl⟩

/-! ## C3: a dark reading is followed by SleepNight and an immediate re-check -/

/-- C3 (as stated, refuted): in the execution where every light reading is dark,
iteration 348 is a CheckLight step that consults the light sensor and reads dark;
on the pass after the following SleepNight (iterations 350 and 351) the light is
read again but the battery is not tested: the pass is CheckLight then SleepNight
again, and CheckBattery is not entered. -/
theorem dark_reading_battery_not_retested :
    (run nightEnv 348).fsm_state = fsm_enum.CheckLight
    ∧ LIGHT_CHECK_PERIOD ≤ (run nightEnv 348).lightChkCnt
    ∧ (nightEnv 348).light = false
    ∧ (run nightEnv 349).fsm_state = fsm_enum.SleepNight
    ∧ (run nightEnv 350).fsm_state = fsm_enum.CheckLight
    ∧ (run nightEnv 350).batCheckCnt = BAT_CHECK_PERIOD
    ∧ events nightEnv 350 = [Event.BSP_checkAmbientLight 880 false]
    ∧ (run nightEnv 351).fsm_state = fsm_enum.SleepNight
    ∧ events nightEnv 351 = [Event.sleep_s 3] := by
  set_option maxRecDepth 1000000 in decide

/-- C3 (amended): in every reachable CheckLight configuration in which the light
sensor is consulted and returns dark, the next state is SleepNight; after the
SleepNight step the light counter equals LIGHT_CHECK_PERIOD, the battery counter
equals BAT_CHECK_PERIOD and the state is CheckLight; on that next pass the light
is read again, and if that reading is light the pass continues to CheckBattery,
where the battery is tested; if it is dark again the machine returns to
SleepNight without a battery test. -/
theorem dark_reading_then_recheck (env : Nat → Collab) (n : Nat)
    (hst : (run env n).fsm_state = fsm_enum.CheckLight)
    (hL : LIGHT_CHECK_PERIOD ≤ (run env n).lightChkCnt)
    (hdark : (env n).light = false) :
    (run env (n + 1)).fsm_state = fsm_enum.SleepNight
    ∧ (run env (n + 2)).fsm_state = fsm_enum.CheckLight
    ∧ (run env (n + 2)).lightChkCnt = LIGHT_CHECK_PERIOD
    ∧ (run env (n + 2)).batCheckCnt = BAT_CHECK_PERIOD
    ∧ Event.BSP_checkAmbientLight (LIGHTSENSOR_LEVEL % 2 ^ 16) (env (n + 2)).light
        ∈ events env (n + 2)
    ∧ ((env (n + 2)).light = true →
        (run env (n + 3)).fsm_state = fsm_enum.CheckBattery ∧
        events env (n + 3) =
          [Event.BSP_testBattery LOWBAT_RAW (env (n + 3)).batLow,
           Event.TRH_LCD_DisplayLowBat (env (n + 3)).batLow])
    ∧ ((env (n + 2)).light = false →
        (run env (n + 3)).fsm_state = fsm_enum.SleepNight ∧
        (events env (n + 2)).all (fun e => !e.isTestBattery) = true ∧
        (events env (n + 3)).all (fun e => !e.isTestBattery) = true) := by
  have hh : (run env n).halted = false :=
    not_halted_of_state _ (Inv_run env n) (by simp [hst]) (by simp [hst])
  simp only [events, run_succ]
  generalize run env n = s at hst hL hh
  obtain ⟨err, cfg, B, L, R, st, lc, lp, dse, inr, hlt⟩ := s
  simp only at hst hL hh
  subst hst hh
  cases hc : (env (n + 2)).light <;> cases lp <;>
    simp [step, caseCheckLight, caseSleepNight, caseCheckBattery, hL, hdark, hc,
      Event.isTestBattery]

theorem dark_reading_then_recheck_witness :
    (run dawnEnv 348).fsm_state = fsm_enum.CheckLight
    ∧ LIGHT_CHECK_PERIOD ≤ (run dawnEnv 348).lightChkCnt
    ∧ (dawnEnv 348).light = false
    ∧ (run dawnEnv 349).fsm_state = fsm_enum.SleepNight
    ∧ (run dawnEnv 350).lightChkCnt = LIGHT_CHECK_PERIOD
    ∧ events dawnEnv 351 =
        [Event.BSP_testBattery LOWBAT_RAW false, Event.TRH_LCD_DisplayLowBat false] :=
  have h1 : (run dawnEnv 348).fsm_state = fsm_enum.CheckLight := by
    set_option maxRecDepth 1000000 in decide
  have h2 : LIGHT_CHECK_PERIOD ≤ (run dawnEnv 348).lightChkCnt := by
    set_option maxRecDepth 1000000 in decide
  have h := dark_reading_then_recheck dawnEnv 348 h1 h2 rfl
  ⟨h1, h2, rfl, h.1, h.2.2.1, (h.2.2.2.2.2.1 rfl).2⟩

/-! ## C4: battery counter resets and the low-battery indicator -/

/-- C4 (as stated, refuted): the very first iteration (PowerUp) calls
`TRH_LCD_DisplayLowBat` although the battery counter is 0, below
BAT_CHECK_PERIOD; it also assigns 0 to the counter. -/
theorem powerup_updates_low_battery_indicator :
    (run dayEnv 0).fsm_state = fsm_enum.PowerUp
    ∧ (run dayEnv 0).batCheckCnt < BAT_CHECK_PERIOD
    ∧ events dayEnv 0 =
        [Event.BSP_testBattery 569 false, Event.TRH_LCD_DisplayLowBat false]
    ∧ (events dayEnv 0).countP Event.isDisplayLowBat = 1
    ∧ (run dayEnv 1).batCheckCnt = 0 := by
  decide

theorem battery_step_facts (c : Collab) (s : MainState) (h : Inv s) :
    (s.batCheckCnt ≠ 0 → (step c s).1.batCheckCnt = 0 →
        s.fsm_state = fsm_enum.CheckBattery ∧ BAT_CHECK_PERIOD ≤ s.batCheckCnt)
    ∧ (s.fsm_state = fsm_enum.CheckBattery → BAT_CHECK_PERIOD ≤ s.batCheckCnt →
        (step c s).1.batCheckCnt = 0)
    ∧ (step c s).2.countP Event.isDisplayLowBat =
        if s.fsm_state = fsm_enum.PowerUp ∨
            (s.fsm_state = fsm_enum.CheckBattery ∧ BAT_CHECK_PERIOD ≤ s.batCheckCnt)
        then 1 else 0 := by
  obtain ⟨err, cfg, B, L, R, st, lc, lp, dse, inr, hlt⟩ := s
  cases hlt
  · cases st <;>
      simp only [step, casePowerUp, caseMeasureT, caseSleepDay, caseMeasureRH,
        caseCheckLight, caseCheckBattery, caseCheckShowConfig, caseSleepNight,
        Bool.false_eq_true, if_false]
    case CheckLight =>
      by_cases hL : LIGHT_CHECK_PERIOD ≤ L <;> cases hc : c.light <;> cases lp <;>
        simp [hL, hc, Event.isLightRead, Event.isDisplayLowBat]
    case SleepDay =>
      simp only [Inv, BAT_CHECK_PERIOD_eq] at h
      have hB : (B + 1) % 4294967296 = B + 1 := by
        cases dse <;> simp at h <;> omega
      cases dse <;> by_cases hR : REFRESH_DATA_PERIOD < R <;>
        simp [hB, hR, Event.isDisplayLowBat]
    case SleepNight => simp [Event.isDisplayLowBat, BAT_CHECK_PERIOD_eq]
    case CheckBattery =>
      by_cases hB : BAT_CHECK_PERIOD ≤ B <;> simp [hB, Event.isDisplayLowBat]
    case PowerUp => simp [Event.isDisplayLowBat]; simp [Inv, init] at h; omega
    case CheckShowConfig => simp [Event.isDisplayLowBat]
    case MeasureT => split_ifs <;> simp_all [Event.isDisplayLowBat]
    case MeasureRH => split_ifs <;> simp_all [Event.isDisplayLowBat]
  · have h1 := h.2.1 rfl
    simp only at h1
    rcases h1 with h1 | h1 <;> subst h1 <;> simp [step]

/-- C4 (amended): in every execution the battery counter goes from a non-zero
value to 0 only in a CheckBattery step where it is at least BAT_CHECK_PERIOD, and
every such step does reset it; `TRH_LCD_DisplayLowBat` is called exactly once in
each such resetting step, exactly once in the initial PowerUp step (which assigns
0 to a counter that is already 0), and in no other step. -/
theorem battery_reset_and_indicator (env : Nat → Collab) (n : Nat) :
    ((run env n).batCheckCnt ≠ 0 → (run env (n + 1)).batCheckCnt = 0 →
        (run env n).fsm_state = fsm_enum.CheckBattery ∧
        BAT_CHECK_PERIOD ≤ (run env n).batCheckCnt)
    ∧ ((run env n).fsm_state = fsm_enum.CheckBattery →
        BAT_CHECK_PERIOD ≤ (run env n).batCheckCnt → (run env (n + 1)).batCheckCnt = 0)
    ∧ (events env n).countP Event.isDisplayLowBat =
        if (run env n).fsm_state = fsm_enum.PowerUp ∨
            ((run env n).fsm_state = fsm_enum.CheckBattery ∧
              BAT_CHECK_PERIOD ≤ (run env n).batCheckCnt)
        then 1 else 0 :=
  battery_step_facts (env n) (run env n) (Inv_run env n)

theorem battery_reset_and_indicator_witness :
    (run dawnEnv 351).fsm_state = fsm_enum.CheckBattery
    ∧ BAT_CHECK_PERIOD ≤ (run dawnEnv 351).batCheckCnt
    ∧ (run dawnEnv 352).batCheckCnt = 0
    ∧ (events dawnEnv 351).countP Event.isDisplayLowBat = 1 :=
  have h0 : (run dawnEnv 351).fsm_state = fsm_enum.CheckBattery := by
    set_option maxRecDepth 1000000 in decide
  have hB : BAT_CHECK_PERIOD ≤ (run dawnEnv 351).batCheckCnt := by
    set_option maxRecDepth 1000000 in decide
  have h := battery_reset_and_indicator dawnEnv 351
  ⟨h0, hB, h.2.1 h0 hB, h.2.2.trans (if_pos (Or.inr ⟨h0, hB⟩))⟩

/-! ## C5: the SleepDay step -/

/-- C5 (as stated, refuted): iteration 4 of the daylight execution is a
cycle-complete SleepDay step with refresh counter 21 > REFRESH_DATA_PERIOD; it
resets the counter, yet on entry to CheckLight the counter is 1, not 0.
Iteration 74 is a cycle-complete SleepDay step with refresh counter 20: the
incremented counter, 21, is greater than REFRESH_DATA_PERIOD, yet no reset is
made. -/
theorem sleepday_reset_precedes_increment :
    ((run dayEnv 4).fsm_state = fsm_enum.SleepDay
      ∧ (run dayEnv 4).dataShowEnd = true
      ∧ (run dayEnv 4).refreshDataCnt = 21
      ∧ (run dayEnv 5).fsm_state = fsm_enum.CheckLight
      ∧ (run dayEnv 5).refreshDataCnt = 1)
    ∧ ((run dayEnv 74).fsm_state = fsm_enum.SleepDay
      ∧ (run dayEnv 74).dataShowEnd = true
      ∧ (run dayEnv 74).refreshDataCnt = 20
      ∧ REFRESH_DATA_PERIOD < (run dayEnv 74).refreshDataCnt + 1
      ∧ (run dayEnv 75).fsm_state = fsm_enum.CheckLight
      ∧ (run dayEnv 75).refreshDataCnt = 21) := by
  set_option maxRecDepth 1000000 in decide

theorem sleepday_step_facts (s : MainState) (h : Inv s)
    (hst : s.fsm_state = fsm_enum.SleepDay) (c : Collab) :
    (step c s).1.lightChkCnt = s.lightChkCnt + 1
    ∧ (step c s).1.batCheckCnt = s.batCheckCnt + 1
    ∧ (s.dataShowEnd = true →
        (step c s).1.fsm_state = fsm_enum.CheckLight ∧
        (step c s).1.refreshDataCnt =
          (if REFRESH_DATA_PERIOD < s.refreshDataCnt then 0 else s.refreshDataCnt) + 1)
    ∧ (s.dataShowEnd = false →
        (step c s).1.fsm_state = fsm_enum.MeasureRH ∧
        (step c s).1.refreshDataCnt = s.refreshDataCnt + 1)
    ∧ (step c s).2 = [Event.sleep_s 3] := by
  have hh : s.halted = false := not_halted_of_state s h (by simp [hst]) (by simp [hst])
  obtain ⟨err, cfg, B, L, R, st, lc, lp, dse, inr, hlt⟩ := s
  simp only at hst hh
  subst hst hh
  simp only [Inv, REFRESH_DATA_PERIOD_eq, LIGHT_CHECK_PERIOD_eq, BAT_CHECK_PERIOD_eq] at h
  have e1 : (L + 1) % 4294967296 = L + 1 := by cases dse <;> simp at h <;> omega
  have e2 : (B + 1) % 4294967296 = B + 1 := by cases dse <;> simp at h <;> omega
  have e3 : (R + 1) % 4294967296 = R + 1 := by cases dse <;> simp at h <;> omega
  cases dse
  · simp [step, caseSleepDay, e1, e2, e3, DISPLAY_TIME_S]
  · by_cases hR : 20 < R <;>
      simp [step, caseSleepDay, e1, e2, e3, hR, DISPLAY_TIME_S, REFRESH_DATA_PERIOD_eq]

/-- C5 (amended): for every SleepDay step, if the cycle-complete flag is set the
next state is CheckLight and the refresh counter is first reset to 0 when its
value before the increment exceeds REFRESH_DATA_PERIOD, otherwise the next state
is MeasureRH and the refresh counter is not reset; then the light, battery and
refresh counters are each incremented by 1 (without wrap-around) and `sleep_s` is
called once.  So after a resetting step the refresh counter is 1 on entry to
CheckLight, and the reset happens exactly when the counter before the increment
is greater than REFRESH_DATA_PERIOD. -/
theorem sleepday_counters (env : Nat → Collab) (n : Nat)
    (hst : (run env n).fsm_state = fsm_enum.SleepDay) :
    (run env (n + 1)).lightChkCnt = (run env n).lightChkCnt + 1
    ∧ (run env (n + 1)).batCheckCnt = (run env n).batCheckCnt + 1
    ∧ ((run env n).dataShowEnd = true →
        (run env (n + 1)).fsm_state = fsm_enum.CheckLight ∧
        (run env (n + 1)).refreshDataCnt =
          (if REFRESH_DATA_PERIOD < (run env n).refreshDataCnt then 0
            else (run env n).refreshDataCnt) + 1)
    ∧ ((run env n).dataShowEnd = false →
        (run env (n + 1)).fsm_state = fsm_enum.MeasureRH ∧
        (run env (n + 1)).refreshDataCnt = (run env n).refreshDataCnt + 1)
    ∧ events env n = [Event.sleep_s 3] :=
  sleepday_step_facts (run env n) (Inv_run env n) hst (env n)

theorem sleepday_counters_witness :
    (run dayEnv 4).fsm_state = fsm_enum.SleepDay
    ∧ (run dayEnv 5).lightChkCnt = (run dayEnv 4).lightChkCnt + 1
    ∧ events dayEnv 4 = [Event.sleep_s 3] :=
  have h := sleepday_counters dayEnv 4 (by decide)
  ⟨by decide, h.1, h.2.2.2.2⟩

/-! ## C6: the display mode is read once per outer cycle -/

theorem mode_cycle_facts (c0 c1 c2 c3 c4 : Collab) (s : MainState) (m : DisplConfig)
    (hh : s.halted = false)
    (hstart : (s.fsm_state = fsm_enum.CheckShowConfig ∧ m = c0.mode) ∨
              (s.fsm_state = fsm_enum.PowerUp ∧ m = DisplConfig.SHOW_T_RH)) :
    let s1 := (step c0 s).1
    let s2 := (step c1 s1).1
    let s3 := (step c2 s2).1
    let s4 := (step c3 s3).1
    s1.fsm_state = fsm_enum.MeasureT ∧ s1.showConfig = some m
    ∧ ((step c1 s1).2.any Event.isShowT = true ↔ m ≠ DisplConfig.SHOW_ONLY_RH)
    ∧ (s2.halted = false →
        s2.fsm_state = fsm_enum.SleepDay ∧ s2.showConfig = some m ∧
        s3.fsm_state = fsm_enum.MeasureRH ∧ s3.showConfig = some m ∧
        ((step c3 s3).2.any Event.isShowRH = true ↔ m ≠ DisplConfig.SHOW_ONLY_T) ∧
        (s4.halted = false → s4.fsm_state = fsm_enum.SleepDay ∧ s4.showConfig = some m ∧
          s4.dataShowEnd = true ∧ (step c4 s4).1.showConfig = some m))
    ∧ (m = DisplConfig.SHOW_ONLY_T →
        (step c0 s).2.any Event.isShowRH = false ∧ (step c1 s1).2.any Event.isShowRH = false ∧
        (step c2 s2).2.any Event.isShowRH = false ∧ (step c3 s3).2.any Event.isShowRH = false ∧
        (step c4 s4).2.any Event.isShowRH = false) := by
  obtain ⟨err, cfg, B, L, R, st, lc, lp, dse, inr, hlt⟩ := s
  simp only at hh hstart
  subst hh
  rcases hstart with ⟨rfl, rfl⟩ | ⟨rfl, rfl⟩
  · cases hm : c0.mode <;> by_cases he : c1.errT % 256 = 0 <;>
      by_cases he3 : c3.errRH % 256 = 0 <;> by_cases hR : 20 < (R + 1) % 4294967296 <;>
      simp [step, caseCheckShowConfig, casePowerUp, caseMeasureT, caseSleepDay, caseMeasureRH,
        hm, he, he3, hR, Event.isShowT, Event.isShowRH, REFRESH_DATA_PERIOD_eq]
  · by_cases he : c1.errT % 256 = 0 <;>
      by_cases he3 : c3.errRH % 256 = 0 <;>
      simp [step, caseCheckShowConfig, casePowerUp, caseMeasureT, caseSleepDay, caseMeasureRH,
        he, he3, Event.isShowT, Event.isShowRH, REFRESH_DATA_PERIOD_eq]

/-- C6: in every outer cycle, started by a CheckShowConfig step at iteration `n`
that reads mode `m` (or by PowerUp, with `m` = SHOW_T_RH), the mode held by
MeasureT (iteration `n+1`) and MeasureRH (iteration `n+3`) up to the end of the
cycle is `m`, whatever the configuration collaborator would answer at the later
iterations: the temperature display call is made in MeasureT exactly when `m` is
not SHOW_ONLY_RH, the humidity display call is made in MeasureRH exactly when `m`
is not SHOW_ONLY_T, and a cycle with `m` = SHOW_ONLY_T makes no humidity display
call in any of its five iterations. -/
theorem display_mode_cached_for_cycle (env : Nat → Collab) (n : Nat) (m : DisplConfig)
    (hstart : ((run env n).fsm_state = fsm_enum.CheckShowConfig ∧ m = (env n).mode) ∨
              ((run env n).fsm_state = fsm_enum.PowerUp ∧ m = DisplConfig.SHOW_T_RH)) :
    (run env (n + 1)).fsm_state = fsm_enum.MeasureT ∧ (run env (n + 1)).showConfig = some m
    ∧ ((events env (n + 1)).any Event.isShowT = true ↔ m ≠ DisplConfig.SHOW_ONLY_RH)
    ∧ ((run env (n + 2)).halted = false →
        (run env (n + 2)).fsm_state = fsm_enum.SleepDay ∧
        (run env (n + 2)).showConfig = some m ∧
        (run env (n + 3)).fsm_state = fsm_enum.MeasureRH ∧
        (run env (n + 3)).showConfig = some m ∧
        ((events env (n + 3)).any Event.isShowRH = true ↔ m ≠ DisplConfig.SHOW_ONLY_T) ∧
        ((run env (n + 4)).halted = false →
          (run env (n + 4)).fsm_state = fsm_enum.SleepDay ∧
          (run env (n + 4)).showConfig = some m ∧
          (run env (n + 4)).dataShowEnd = true ∧
          (run env (n + 5)).showConfig = some m))
    ∧ (m = DisplConfig.SHOW_ONLY_T →
        (events env n).any Event.isShowRH = false ∧
        (events env (n + 1)).any Event.isShowRH = false ∧
        (events env (n + 2)).any Event.isShowRH = false ∧
        (events env (n + 3)).any Event.isShowRH = false ∧
        (events env (n + 4)).any Event.isShowRH = false) := by
  have hh : (run env n).halted = false := by
    apply not_halted_of_state _ (Inv_run env n) <;> rcases hstart with h | h <;> simp [h.1]
  exact mode_cycle_facts (env n) (env (n + 1)) (env (n + 2)) (env (n + 3)) (env (n + 4))
    (run env n) m hh hstart

theorem display_mode_cached_for_cycle_witness :
    (run tOnlyEnv 7).fsm_state = fsm_enum.CheckShowConfig
    ∧ (run tOnlyEnv 8).showConfig = some DisplConfig.SHOW_ONLY_T
    ∧ (events tOnlyEnv 10).any Event.isShowRH = false :=
  have h0 : (run tOnlyEnv 7).fsm_state = fsm_enum.CheckShowConfig := by decide
  have h := display_mode_cached_for_cycle tOnlyEnv 7 DisplConfig.SHOW_ONLY_T (Or.inl ⟨h0, rfl⟩)
  ⟨h0, h.2.1, (h.2.2.2.2 rfl).2.2.2.1⟩

/-! ## C7: the refresh flag is computed in MeasureT and reused in MeasureRH -/

theorem pred_of_MeasureRH (c : Collab) (s : MainState)
    (h1 : (step c s).1.fsm_state = fsm_enum.MeasureRH)
    (h2 : (step c s).1.halted = false) :
    s.fsm_state = fsm_enum.SleepDay ∧ s.dataShowEnd = false ∧ s.halted = false
    ∧ (step c s).1.isNeedRefresh = s.isNeedRefresh := by
  obtain ⟨err, cfg, B, L, R, st, lc, lp, dse, inr, hlt⟩ := s
  cases hlt
  · cases st <;>
      simp only [step, casePowerUp, caseMeasureT, caseSleepDay, caseMeasureRH,
        caseCheckLight, caseCheckBattery, caseCheckShowConfig, caseSleepNight,
        Bool.false_eq_true, if_false] at h1 h2 ⊢
    case CheckLight =>
      revert h1
      by_cases hL : LIGHT_CHECK_PERIOD ≤ L <;> cases hc : c.light <;> cases lp <;> simp [hL, hc]
    case SleepDay =>
      revert h1
      cases dse <;> simp <;> split_ifs <;> simp
    all_goals first | (split_ifs at h1 h2 ⊢ <;> simp_all) | simp_all
  · simp [step] at h2

theorem pred_of_first_SleepDay (c : Collab) (s : MainState)
    (h1 : (step c s).1.fsm_state = fsm_enum.SleepDay)
    (h2 : (step c s).1.halted = false)
    (h3 : (step c s).1.dataShowEnd = false) :
    s.fsm_state = fsm_enum.MeasureT ∧ s.halted = false
    ∧ (step c s).1.isNeedRefresh = some (refreshFlag s.refreshDataCnt)
    ∧ (∀ f r, Event.BSP_showT f r ∈ (step c s).2 → f = refreshFlag s.refreshDataCnt) := by
  obtain ⟨err, cfg, B, L, R, st, lc, lp, dse, inr, hlt⟩ := s
  cases hlt
  · cases st <;>
      simp only [step, casePowerUp, caseMeasureT, caseSleepDay, caseMeasureRH,
        caseCheckLight, caseCheckBattery, caseCheckShowConfig, caseSleepNight,
        Bool.false_eq_true, if_false] at h1 h2 h3 ⊢
    case CheckLight =>
      revert h1
      by_cases hL : LIGHT_CHECK_PERIOD ≤ L <;> cases hc : c.light <;> cases lp <;> simp [hL, hc]
    case SleepDay =>
      revert h1
      cases dse <;> simp <;> split_ifs <;> simp
    case MeasureT =>
      by_cases hR : REFRESH_DATA_PERIOD ≤ R <;>
        simp only [hR, if_true, if_false, refreshFlag] at h1 h2 h3 ⊢ <;>
        split_ifs at h1 h2 h3 ⊢ <;> simp_all
    all_goals first | (split_ifs at h1 h2 h3 ⊢ <;> simp_all) | simp_all
  · simp [step] at h2

/-- C7: every MeasureRH step (iteration `n`) is preceded in the same outer cycle
by a MeasureT step (iteration `n - 2`, with the first SleepDay between them), so
`isNeedRefresh` is assigned before it is read; the flag held in MeasureRH and
passed to the humidity display call is the one computed by that MeasureT (and
passed to its temperature display call), which is REFRESH_VALUE if and only if the
refresh counter was at least REFRESH_DATA_PERIOD when MeasureT ran. -/
theorem refresh_flag_shared (env : Nat → Collab) (n : Nat)
    (hst : (run env n).fsm_state = fsm_enum.MeasureRH)
    (hh : (run env n).halted = false) :
    ∃ k, n = k + 2
      ∧ (run env k).fsm_state = fsm_enum.MeasureT ∧ (run env k).halted = false
      ∧ (run env (k + 1)).fsm_state = fsm_enum.SleepDay
      ∧ (run env n).isNeedRefresh = some (refreshFlag (run env k).refreshDataCnt)
      ∧ (∀ f r, Event.BSP_showRH f r ∈ events env n →
          f = some (refreshFlag (run env k).refreshDataCnt))
      ∧ (∀ f r, Event.BSP_showT f r ∈ events env k →
          f = refreshFlag (run env k).refreshDataCnt)
      ∧ (refreshFlag (run env k).refreshDataCnt = ShowValueType.REFRESH_VALUE ↔
          REFRESH_DATA_PERIOD ≤ (run env k).refreshDataCnt) := by
  match n, hst, hh with
  | 0, hst, _ => simp [run, init] at hst
  | 1, hst, _ => simp [run, init, step, casePowerUp] at hst
  | k + 2, hst, hh =>
    refine ⟨k, rfl, ?_⟩
    have p1 := pred_of_MeasureRH (env (k + 1)) (run env (k + 1)) hst hh
    obtain ⟨q1, q2, q3, q4⟩ := p1
    have p2 := pred_of_first_SleepDay (env k) (run env k) q1 q3 q2
    obtain ⟨r1, r2, r3, r4⟩ := p2
    have hflag : (run env (k + 2)).isNeedRefresh
        = some (refreshFlag (run env k).refreshDataCnt) := by
      rw [run_succ env (k + 1), q4, run_succ env k, r3]
    refine ⟨r1, r2, q1, hflag, ?_, r4, ?_⟩
    · intro f r hmem
      rw [← hflag]
      simp only [events] at hmem
      generalize run env (k + 2) = s at hst hh hmem ⊢
      obtain ⟨err, cfg, B, L, R, st, lc, lp, dse, inr, hlt⟩ := s
      simp only at hst hh
      subst hst hh
      simp only [step, caseMeasureRH, Bool.false_eq_true, if_false] at hmem
      split_ifs at hmem <;> simp_all
    · unfold refreshFlag
      split_ifs with hc <;> simp [hc]

theorem refresh_flag_shared_witness :
    (run dayEnv 3).fsm_state = fsm_enum.MeasureRH
    ∧ (run dayEnv 3).halted = false
    ∧ ∃ k, 3 = k + 2 ∧ (run dayEnv k).fsm_state = fsm_enum.MeasureT
      ∧ (run dayEnv 3).isNeedRefresh = some (refreshFlag (run dayEnv k).refreshDataCnt) :=
  have h := refresh_flag_shared dayEnv 3 (by decide) (by decide)
  ⟨by decide, by decide, h.imp (fun _ hk => ⟨hk.1, hk.2.1, hk.2.2.2.2.1⟩)⟩

/-! ## C8: the CheckLight step -/

theorem checklight_step_facts (c : Collab) (s : MainState)
    (hst : s.fsm_state = fsm_enum.CheckLight) (hh : s.halted = false) :
    ((step c s).2.any Event.isLightRead = true ↔ LIGHT_CHECK_PERIOD ≤ s.lightChkCnt)
    ∧ (LIGHT_CHECK_PERIOD ≤ s.lightChkCnt →
        (step c s).1.lightChkCnt = 0 ∧
        (step c s).1.lightCheck = c.light ∧
        (step c s).1.lightPrevious = c.light ∧
        (step c s).2 =
          Event.BSP_checkAmbientLight 880 c.light ::
            (if c.light ≠ s.lightPrevious then [Event.TRH_LCD_Control c.light] else []))
    ∧ ((step c s).2.any Event.isLcdControl = true ↔
        (LIGHT_CHECK_PERIOD ≤ s.lightChkCnt ∧ c.light ≠ s.lightPrevious))
    ∧ (∀ b, Event.TRH_LCD_Control b ∈ (step c s).2 → b = c.light)
    ∧ (¬ LIGHT_CHECK_PERIOD ≤ s.lightChkCnt →
        (step c s).1.lightChkCnt = s.lightChkCnt ∧
        (step c s).1.lightCheck = s.lightCheck ∧
        (step c s).1.lightPrevious = s.lightPrevious ∧
        (step c s).2 = []) := by
  obtain ⟨err, cfg, B, L, R, st, lc, lp, dse, inr, hlt⟩ := s
  simp only at hst hh
  subst hst hh
  by_cases hL : LIGHT_CHECK_PERIOD ≤ L <;> cases hc : c.light <;> cases lp <;>
    simp [step, caseCheckLight, hL, hc, Event.isLightRead, Event.isLcdControl,
      LIGHTSENSOR_LEVEL]

/-- C8: for every CheckLight step, the ambient light is read if and only if the
light counter is at least LIGHT_CHECK_PERIOD, and then the counter is set to 0;
`TRH_LCD_Control` is called if and only if a reading was taken and it differs from
the remembered previous reading, it is called with the new reading, and after a
reading the remembered reading equals the new one; when no reading is taken the
counter and the two light variables are unchanged and no call is made. -/
theorem checklight_step (env : Nat → Collab) (n : Nat)
    (hst : (run env n).fsm_state = fsm_enum.CheckLight) :
    ((events env n).any Event.isLightRead = true ↔
        LIGHT_CHECK_PERIOD ≤ (run env n).lightChkCnt)
    ∧ (LIGHT_CHECK_PERIOD ≤ (run env n).lightChkCnt →
        (run env (n + 1)).lightChkCnt = 0 ∧
        (run env (n + 1)).lightCheck = (env n).light ∧
        (run env (n + 1)).lightPrevious = (env n).light ∧
        events env n =
          Event.BSP_checkAmbientLight 880 (env n).light ::
            (if (env n).light ≠ (run env n).lightPrevious
              then [Event.TRH_LCD_Control (env n).light] else []))
    ∧ ((events env n).any Event.isLcdControl = true ↔
        (LIGHT_CHECK_PERIOD ≤ (run env n).lightChkCnt ∧
          (env n).light ≠ (run env n).lightPrevious))
    ∧ (∀ b, Event.TRH_LCD_Control b ∈ events env n → b = (env n).light)
    ∧ (¬ LIGHT_CHECK_PERIOD ≤ (run env n).lightChkCnt →
        (run env (n + 1)).lightChkCnt = (run env n).lightChkCnt ∧
        (run env (n + 1)).lightCheck = (run env n).lightCheck ∧
        (run env (n + 1)).lightPrevious = (run env n).lightPrevious ∧
        events env n = []) :=
  checklight_step_facts (env n) (run env n) hst
    (not_halted_of_state _ (Inv_run env n) (by simp [hst]) (by simp [hst]))

theorem checklight_step_witness :
    (run nightEnv 348).fsm_state = fsm_enum.CheckLight
    ∧ LIGHT_CHECK_PERIOD ≤ (run nightEnv 348).lightChkCnt
    ∧ (events nightEnv 348).any Event.isLcdControl = true
    ∧ (run nightEnv 349).lightChkCnt = 0 :=
  have h0 : (run nightEnv 348).fsm_state = fsm_enum.CheckLight := by
    set_option maxRecDepth 1000000 in decide
  have hL : LIGHT_CHECK_PERIOD ≤ (run nightEnv 348).lightChkCnt := by
    set_option maxRecDepth 1000000 in decide
  have hp : (nightEnv 348).light ≠ (run nightEnv 348).lightPrevious := by
    set_option maxRecDepth 1000000 in decide
  have h := checklight_step nightEnv 348 h0
  ⟨h0, hL, h.2.2.1.mpr ⟨hL, hp⟩, (h.2.1 hL).1⟩

/-! ## C9: the night loop -/

theorem night_pass (c c2 : Collab) (s : MainState)
    (hst : s.fsm_state = fsm_enum.CheckLight) (hh : s.halted = false)
    (hL : LIGHT_CHECK_PERIOD ≤ s.lightChkCnt) (hdark : c.light = false) :
    (step c s).1.fsm_state = fsm_enum.SleepNight
    ∧ (step c s).1.halted = false
    ∧ (step c s).1.refreshDataCnt = s.refreshDataCnt
    ∧ (step c s).2.any Event.isLightRead = true
    ∧ (step c s).2.all
        (fun e => !e.isTestBattery && !e.isShowT && !e.isShowRH) = true
    ∧ (step c2 (step c s).1).1.fsm_state = fsm_enum.CheckLight
    ∧ (step c2 (step c s).1).1.halted = false
    ∧ LIGHT_CHECK_PERIOD ≤ (step c2 (step c s).1).1.lightChkCnt
    ∧ (step c2 (step c s).1).1.refreshDataCnt = s.refreshDataCnt
    ∧ (step c2 (step c s).1).2 = [Event.sleep_s 3] := by
  obtain ⟨err, cfg, B, L, R, st, lc, lp, dse, inr, hlt⟩ := s
  simp only at hst hh hL
  subst hst hh
  cases lp <;>
    simp [step, caseCheckLight, caseSleepNight, hL, hdark, Event.isLightRead,
      Event.isTestBattery, Event.isShowT, Event.isShowRH, DISPLAY_TIME_S]

theorem night_loop_state (env : Nat → Collab) (n k : Nat)
    (hst : (run env n).fsm_state = fsm_enum.CheckLight)
    (hh : (run env n).halted = false)
    (hL : LIGHT_CHECK_PERIOD ≤ (run env n).lightChkCnt)
    (hdark : ∀ j, j ≤ k → (env (n + 2 * j)).light = false) :
    ∀ j, j ≤ k + 1 →
      (run env (n + 2 * j)).fsm_state = fsm_enum.CheckLight
      ∧ (run env (n + 2 * j)).halted = false
      ∧ LIGHT_CHECK_PERIOD ≤ (run env (n + 2 * j)).lightChkCnt
      ∧ (run env (n + 2 * j)).refreshDataCnt = (run env n).refreshDataCnt := by
  intro j
  induction j with
  | zero => intro _; exact ⟨hst, hh, hL, rfl⟩
  | succ i ih =>
    intro hi
    obtain ⟨a1, a2, a3, a4⟩ := ih (by omega)
    have hp := night_pass (env (n + 2 * i)) (env (n + 2 * i + 1)) (run env (n + 2 * i))
      a1 a2 a3 (hdark i (by omega))
    have e : n + 2 * (i + 1) = n + 2 * i + 1 + 1 := by ring
    rw [e, run_succ env (n + 2 * i + 1), run_succ env (n + 2 * i)]
    exact ⟨hp.2.2.2.2.2.1, hp.2.2.2.2.2.2.1, hp.2.2.2.2.2.2.2.1,
      hp.2.2.2.2.2.2.2.2.1.trans a4⟩

/-- C9: from a reachable CheckLight step (iteration `n`) whose reading is dark,
as long as the readings of the CheckLight steps `n, n+2, ..., n+2k` are dark, the
machine alternates CheckLight and SleepNight only: every even offset up to
`n+2k+2` is a CheckLight step that reads the light sensor (counter at least
LIGHT_CHECK_PERIOD), every odd offset is SleepNight; no call to `BSP_testBattery`,
`BSP_showT` or `BSP_showRH` is made, and the refresh counter keeps the value it
had at iteration `n`.  The step at `n+2k+2`, the first whose reading may be
light, still reads the sensor. -/
theorem night_loop (env : Nat → Collab) (n k : Nat)
    (hst : (run env n).fsm_state = fsm_enum.CheckLight)
    (hL : LIGHT_CHECK_PERIOD ≤ (run env n).lightChkCnt)
    (hdark : ∀ j, j ≤ k → (env (n + 2 * j)).light = false) :
    ∀ j, j ≤ k →
      (run env (n + 2 * j)).fsm_state = fsm_enum.CheckLight
      ∧ LIGHT_CHECK_PERIOD ≤ (run env (n + 2 * j)).lightChkCnt
      ∧ (events env (n + 2 * j)).any Event.isLightRead = true
      ∧ (run env (n + 2 * j + 1)).fsm_state = fsm_enum.SleepNight
      ∧ (run env (n + 2 * j + 2)).fsm_state = fsm_enum.CheckLight
      ∧ LIGHT_CHECK_PERIOD ≤ (run env (n + 2 * j + 2)).lightChkCnt
      ∧ (events env (n + 2 * j + 2)).any Event.isLightRead = true
      ∧ (run env (n + 2 * j + 1)).refreshDataCnt = (run env n).refreshDataCnt
      ∧ (run env (n + 2 * j + 2)).refreshDataCnt = (run env n).refreshDataCnt
      ∧ (events env (n + 2 * j) ++ events env (n + 2 * j + 1)).all
          (fun e => !e.isTestBattery && !e.isShowT && !e.isShowRH) = true := by
  intro j hj
  have hh : (run env n).halted = false :=
    not_halted_of_state _ (Inv_run env n) (by simp [hst]) (by simp [hst])
  obtain ⟨a1, a2, a3, a4⟩ := night_loop_state env n k hst hh hL hdark j (by omega)
  obtain ⟨b1, b2, b3, -⟩ := night_loop_state env n k hst hh hL hdark (j + 1) (by omega)
  have e : n + 2 * (j + 1) = n + 2 * j + 2 := by ring
  rw [e] at b1 b2 b3
  have hp := night_pass (env (n + 2 * j)) (env (n + 2 * j + 1)) (run env (n + 2 * j))
    a1 a2 a3 (hdark j hj)
  obtain ⟨p1, p2, p3, p4, p5, p6, p7, p8, p9, p10⟩ := hp
  have hread : (events env (n + 2 * j + 2)).any Event.isLightRead = true :=
    (checklight_step_facts (env (n + 2 * j + 2)) (run env (n + 2 * j + 2)) b1 b2).1.mpr b3
  refine ⟨a1, a3, p4, p1, b1, b3, hread, p3.trans a4, ?_, ?_⟩
  · rw [run_succ env (n + 2 * j + 1), run_succ env (n + 2 * j)]
    exact p9.trans a4
  · have e1 : events env (n + 2 * j + 1) = [Event.sleep_s 3] := by
      simp only [events, run_succ env (n + 2 * j)]
      exact p10
    rw [e1, List.all_append, show events env (n + 2 * j) = (step (env (n + 2 * j))
      (run env (n + 2 * j))).2 from rfl, p5]
    simp [Event.isTestBattery, Event.isShowT, Event.isShowRH]

theorem night_loop_witness :
    (run nightEnv 348).fsm_state = fsm_enum.CheckLight
    ∧ LIGHT_CHECK_PERIOD ≤ (run nightEnv 348).lightChkCnt
    ∧ (∀ j, j ≤ 3 → (nightEnv (348 + 2 * j)).light = false)
    ∧ (run nightEnv (348 + 2 * 3 + 1)).fsm_state = fsm_enum.SleepNight
    ∧ (run nightEnv (348 + 2 * 3 + 2)).refreshDataCnt = (run nightEnv 348).refreshDataCnt :=
  have h0 : (run nightEnv 348).fsm_state = fsm_enum.CheckLight := by
    set_option maxRecDepth 1000000 in decide
  have hL : LIGHT_CHECK_PERIOD ≤ (run nightEnv 348).lightChkCnt := by
    set_option maxRecDepth 1000000 in decide
  have h := night_loop nightEnv 348 3 h0 hL (fun _ _ => rfl) 3 (Nat.le_refl 3)
  ⟨h0, hL, fun _ _ => rfl, h.2.2.2.1, h.2.2.2.2.2.2.2.2.1⟩

/-! ## C10: a failing display call halts the machine -/

theorem run_halted_stable (env : Nat → Collab) (m : Nat) (h : (run env m).halted = true) :
    ∀ k, run env (m + k) = run env m ∧ events env (m + k) = [] := by
  intro k
  induction k with
  | zero => exact ⟨rfl, by simp [events, step_of_halted _ _ h]⟩
  | succ i ih =>
    have e : run env (m + (i + 1)) = run env m := by
      rw [show m + (i + 1) = m + i + 1 from rfl, run_succ, ih.1, step_of_halted _ _ h]
    refine ⟨e, ?_⟩
    simp only [events]
    rw [e, step_of_halted _ _ h]

theorem measure_step_error_facts (c : Collab) (s : MainState) (hh : s.halted = false)
    (hT : c.errT < 256) (hRH : c.errRH < 256) :
    (s.fsm_state = fsm_enum.MeasureT → s.showConfig ≠ some DisplConfig.SHOW_ONLY_RH →
        (step c s).2.any Event.isShowT = true
        ∧ ((step c s).1.halted = true ↔ c.errT ≠ 0)
        ∧ (c.errT ≠ 0 → (step c s).1.error = c.errT ∧
            Event.error_handler ErrStr.T_read_err c.errT ∈ (step c s).2)
        ∧ (c.errT = 0 → (step c s).1.fsm_state = fsm_enum.SleepDay ∧
            (step c s).2 = [Event.BSP_showT (refreshFlag s.refreshDataCnt) 0]))
    ∧ (s.fsm_state = fsm_enum.MeasureRH → s.showConfig ≠ some DisplConfig.SHOW_ONLY_T →
        (step c s).2.any Event.isShowRH = true
        ∧ ((step c s).1.halted = true ↔ c.errRH ≠ 0)
        ∧ (c.errRH ≠ 0 → (step c s).1.error = c.errRH ∧
            Event.error_handler ErrStr.RH_read_err c.errRH ∈ (step c s).2)
        ∧ (c.errRH = 0 → (step c s).1.fsm_state = fsm_enum.SleepDay ∧
            (step c s).2 = [Event.BSP_showRH s.isNeedRefresh 0])) := by
  obtain ⟨err, cfg, B, L, R, st, lc, lp, dse, inr, hlt⟩ := s
  simp only at hh
  subst hh
  have e1 : c.errT % 256 = c.errT := Nat.mod_eq_of_lt hT
  have e2 : c.errRH % 256 = c.errRH := Nat.mod_eq_of_lt hRH
  constructor
  · rintro rfl hcfg
    simp only at hcfg
    by_cases he : c.errT = 0 <;>
      simp [step, caseMeasureT, hcfg, he, e1, Event.isShowT, refreshFlag]
  · rintro rfl hcfg
    simp only at hcfg
    by_cases he : c.errRH = 0 <;>
      simp [step, caseMeasureRH, hcfg, he, e2, Event.isShowRH]

/-- C10: a temperature display call made in MeasureT, or a humidity display call
made in MeasureRH, halts the machine if and only if the returned 8-bit error code
is non-zero: on a non-zero code `error_handler` is entered with that code and from
then on the locals (state, counters) never change and no call (sleep, sensor,
display) is made again; on a zero code the machine proceeds to SleepDay. -/
theorem display_error_halts (env : Nat → Collab) (n : Nat)
    (hh : (run env n).halted = false)
    (hT : (env n).errT < 256) (hRH : (env n).errRH < 256) :
    ((run env n).fsm_state = fsm_enum.MeasureT →
      (run env n).showConfig ≠ some DisplConfig.SHOW_ONLY_RH →
        (events env n).any Event.isShowT = true
        ∧ ((run env (n + 1)).halted = true ↔ (env n).errT ≠ 0)
        ∧ ((env n).errT ≠ 0 →
            Event.error_handler ErrStr.T_read_err (env n).errT ∈ events env n ∧
            ∀ k, run env (n + 1 + k) = run env (n + 1) ∧ events env (n + 1 + k) = [])
        ∧ ((env n).errT = 0 → (run env (n + 1)).fsm_state = fsm_enum.SleepDay))
    ∧ ((run env n).fsm_state = fsm_enum.MeasureRH →
      (run env n).showConfig ≠ some DisplConfig.SHOW_ONLY_T →
        (events env n).any Event.isShowRH = true
        ∧ ((run env (n + 1)).halted = true ↔ (env n).errRH ≠ 0)
        ∧ ((env n).errRH ≠ 0 →
            Event.error_handler ErrStr.RH_read_err (env n).errRH ∈ events env n ∧
            ∀ k, run env (n + 1 + k) = run env (n + 1) ∧ events env (n + 1 + k) = [])
        ∧ ((env n).errRH = 0 → (run env (n + 1)).fsm_state = fsm_enum.SleepDay)) := by
  have h := measure_step_error_facts (env n) (run env n) hh hT hRH
  constructor
  · intro hst hcfg
    obtain ⟨a1, a2, a3, a4⟩ := h.1 hst hcfg
    exact ⟨a1, a2,
      fun he => ⟨(a3 he).2, run_halted_stable env (n + 1) (a2.mpr he)⟩,
      fun he => (a4 he).1⟩
  · intro hst hcfg
    obtain ⟨a1, a2, a3, a4⟩ := h.2 hst hcfg
    exact ⟨a1, a2,
      fun he => ⟨(a3 he).2, run_halted_stable env (n + 1) (a2.mpr he)⟩,
      fun he => (a4 he).1⟩

theorem display_error_halts_witness :
    (run faultEnv 1).halted = false
    ∧ (faultEnv 1).errT < 256 ∧ (faultEnv 1).errRH < 256
    ∧ (run faultEnv 1).fsm_state = fsm_enum.MeasureT
    ∧ (run faultEnv 2).halted = true
    ∧ Event.error_handler ErrStr.T_read_err 7 ∈ events faultEnv 1
    ∧ run faultEnv (1 + 1 + 1000) = run faultEnv (1 + 1) :=
  have h := (display_error_halts faultEnv 1 (by decide) (by decide) (by decide)).1
    (by decide) (by decide)
  have h7 : (faultEnv 1).errT ≠ 0 := by decide
  ⟨by decide, by decide, by decide, by decide, h.2.1.mpr h7, (h.2.2.1 h7).1,
    ((h.2.2.1 h7).2 1000).1⟩

/-! ## Bounds that follow from the invariant -/

theorem Inv_bounds (s : MainState) (h : Inv s) :
    s.lightChkCnt ≤ 100 ∧ s.batCheckCnt ≤ 28800 ∧ s.refreshDataCnt ≤ 22 := by
  obtain ⟨err, cfg, B, L, R, st, lc, lp, dse, inr, hlt⟩ := s
  cases st <;>
    simp only [Inv, REFRESH_DATA_PERIOD_eq, LIGHT_CHECK_PERIOD_eq, BAT_CHECK_PERIOD_eq] at h ⊢
  case PowerUp =>
    have h3 := h.2.2
    simp only [init, MainState.mk.injEq] at h3
    omega
  case SleepDay =>
    obtain ⟨-, -, -, -, h⟩ := h
    split_ifs at h <;> omega
  all_goals omega

/-! ## C11: the sleep scheduler -/

theorem ceil_div_step (t b : Nat) (hb : 0 < b) :
    (t + 1 + b - 1) / b = 1 + (t + 1 - min (t + 1) b + b - 1) / b := by
  by_cases h : t + 1 ≤ b
  · rw [Nat.min_eq_left h]
    have e1 : (t + 1 + b - 1) / b = 1 := by
      have : t + 1 + b - 1 = t + b := by omega
      rw [this]
      apply Nat.div_eq_of_lt_le <;> omega
    have e2 : (t + 1 - (t + 1) + b - 1) / b = 0 := by
      apply Nat.div_eq_of_lt
      omega
    rw [e1, e2]
  · rw [Nat.min_eq_right (by omega)]
    have e1 : t + 1 + b - 1 = (t + 1 - b + b - 1) + b := by omega
    rw [e1, Nat.add_div_right _ hb]
    omega

theorem sleepLoop_spec (b : Nat) (hb : 0 < b) :
    ∀ t fuel, t ≤ fuel →
      ∃ ws, sleepLoop b fuel t = some ws
        ∧ ws.length = (t + b - 1) / b
        ∧ (∀ w ∈ ws, 0 < w ∧ w ≤ b)
        ∧ ws.sum = t := by
  intro t
  induction t using Nat.strong_induction_on with
  | _ t ih =>
    intro fuel hf
    cases t with
    | zero =>
      refine ⟨[], ?_, ?_, ?_, rfl⟩
      · cases fuel <;> rfl
      · rw [Nat.div_eq_of_lt (by omega)]
        rfl
      · simp
    | succ t =>
      cases fuel with
      | zero => omega
      | succ fuel =>
        have hw : 0 < min (t + 1) b := by
          rw [Nat.lt_min]
          omega
        have hw2 : min (t + 1) b ≤ t + 1 := Nat.min_le_left _ _
        obtain ⟨ws, h1, h2, h3, h4⟩ := ih (t + 1 - min (t + 1) b) (by omega) fuel (by omega)
        refine ⟨min (t + 1) b :: ws, ?_, ?_, ?_, ?_⟩
        · simp only [sleepLoop, h1, Option.map_some']
        · rw [List.length_cons, h2, ceil_div_step t b hb]
          omega
        · intro w hmem
          rcases List.mem_cons.mp hmem with rfl | hmem
          · exact ⟨hw, Nat.min_le_right _ _⟩
          · exact h3 w hmem
        · rw [List.sum_cons, h4]
          omega

theorem sleepLoop_zero (b fuel : Nat) : sleepLoop b fuel 0 = some [] := by
  cases fuel <;> rfl

/-- C11: for every duration `n` and every positive tick budget, `sleep_s n` and
`sleep_ms n` (as the specification describes them) terminate, given at least
`ticks n` loop iterations, and issue exactly ceil(ticks n / TickBudget) hardware
waits, each of at least one and at most TickBudget ticks, whose tick counts sum
to `ticks n`, where `ticks n = n * TRH_LSI_FREQ_HZ / unitsPerSecond` truncated
(unitsPerSecond is 1 for `sleep_s` and 1000 for `sleep_ms`); when `ticks n = 0`
no wait is issued. -/
theorem sleep_waits (tickBudget : Nat) (hb : 0 < tickBudget) (n fuel : Nat) :
    (sleepTicks TRH_LSI_FREQ_HZ 1 n ≤ fuel →
      ∃ ws, sleep_s tickBudget fuel n = some ws
        ∧ ws.length = (sleepTicks TRH_LSI_FREQ_HZ 1 n + tickBudget - 1) / tickBudget
        ∧ (∀ w ∈ ws, 0 < w ∧ w ≤ tickBudget)
        ∧ ws.sum = sleepTicks TRH_LSI_FREQ_HZ 1 n
        ∧ (sleepTicks TRH_LSI_FREQ_HZ 1 n = 0 → ws = []))
    ∧ (sleepTicks TRH_LSI_FREQ_HZ 1000 n ≤ fuel →
      ∃ ws, sleep_ms tickBudget fuel n = some ws
        ∧ ws.length = (sleepTicks TRH_LSI_FREQ_HZ 1000 n + tickBudget - 1) / tickBudget
        ∧ (∀ w ∈ ws, 0 < w ∧ w ≤ tickBudget)
        ∧ ws.sum = sleepTicks TRH_LSI_FREQ_HZ 1000 n
        ∧ (sleepTicks TRH_LSI_FREQ_HZ 1000 n = 0 → ws = [])) := by
  constructor
  · intro hf
    obtain ⟨ws, h1, h2, h3, h4⟩ := sleepLoop_spec tickBudget hb _ fuel hf
    refine ⟨ws, h1, h2, h3, h4, ?_⟩
    intro h0
    have := sleepLoop_zero tickBudget fuel
    rw [← h0] at this
    rw [this] at h1
    exact (Option.some.inj h1).symm
  · intro hf
    obtain ⟨ws, h1, h2, h3, h4⟩ := sleepLoop_spec tickBudget hb _ fuel hf
    refine ⟨ws, h1, h2, h3, h4, ?_⟩
    intro h0
    have := sleepLoop_zero tickBudget fuel
    rw [← h0] at this
    rw [this] at h1
    exact (Option.some.inj h1).symm

theorem sleep_waits_witness :
    0 < WCNT_MAX_mS
    ∧ sleep_ms WCNT_MAX_mS 7 500 = some [3000, 3000, 3000, 3000, 3000, 3000, 1750]
    ∧ ∃ ws, sleep_ms WCNT_MAX_mS 19750 500 = some ws ∧ ws.length = 7 ∧ ws.sum = 19750 :=
  have hb : 0 < WCNT_MAX_mS := by decide
  have h := (sleep_waits WCNT_MAX_mS hb 500 19750).2 (by decide)
  ⟨hb, by decide, h.imp (fun _ hk => ⟨hk.1, hk.2.1.trans (by decide), hk.2.2.2.1.trans (by decide)⟩)⟩

/-! ## Daylight operation: one iteration and the schedule -/

theorem day_step_facts (c : Collab) (s : MainState) (hI : Inv s) (hh : s.halted = false)
    (hl : c.light = true) (hT : c.errT = 0) (hRH : c.errRH = 0) :
    (step c s).1.halted = false
    ∧ (s.fsm_state = fsm_enum.MeasureT →
        (step c s).1.fsm_state = fsm_enum.SleepDay ∧ (step c s).1.dataShowEnd = false ∧
        (step c s).1.lightChkCnt = s.lightChkCnt ∧ (step c s).1.batCheckCnt = s.batCheckCnt)
    ∧ (s.fsm_state = fsm_enum.MeasureRH →
        (step c s).1.fsm_state = fsm_enum.SleepDay ∧ (step c s).1.dataShowEnd = true ∧
        (step c s).1.lightChkCnt = s.lightChkCnt ∧ (step c s).1.batCheckCnt = s.batCheckCnt)
    ∧ (s.fsm_state = fsm_enum.SleepDay →
        (step c s).1.fsm_state =
          (if s.dataShowEnd = true then fsm_enum.CheckLight else fsm_enum.MeasureRH) ∧
        (step c s).1.dataShowEnd = s.dataShowEnd ∧
        (step c s).1.lightChkCnt = s.lightChkCnt + 1 ∧
        (step c s).1.batCheckCnt = s.batCheckCnt + 1)
    ∧ (s.fsm_state = fsm_enum.CheckLight →
        (step c s).1.fsm_state = fsm_enum.CheckBattery ∧
        (step c s).1.lightChkCnt = (if 100 ≤ s.lightChkCnt then 0 else s.lightChkCnt) ∧
        (step c s).1.batCheckCnt = s.batCheckCnt)
    ∧ (s.fsm_state = fsm_enum.CheckBattery →
        (step c s).1.fsm_state = fsm_enum.CheckShowConfig ∧
        (step c s).1.lightChkCnt = s.lightChkCnt ∧
        (step c s).1.batCheckCnt = (if 28800 ≤ s.batCheckCnt then 0 else s.batCheckCnt))
    ∧ (s.fsm_state = fsm_enum.CheckShowConfig →
        (step c s).1.fsm_state = fsm_enum.MeasureT ∧
        (step c s).1.lightChkCnt = s.lightChkCnt ∧ (step c s).1.batCheckCnt = s.batCheckCnt) := by
  refine ⟨step_no_error c s hh hT hRH, ?_, ?_, ?_, ?_, ?_, ?_⟩
  · intro hst
    obtain ⟨err, cfg, B, L, R, st, lc, lp, dse, inr, hlt⟩ := s
    simp only at hst hh
    subst hst hh
    have hd : dse = false := by
      simp only [Inv] at hI
      exact hI.2.2.2.2.2.2.2.2.2.2
    subst hd
    by_cases g : cfg = some DisplConfig.SHOW_ONLY_RH <;> simp [step, caseMeasureT, g, hT]
  · intro hst
    obtain ⟨err, cfg, B, L, R, st, lc, lp, dse, inr, hlt⟩ := s
    simp only at hst hh
    subst hst hh
    by_cases g : cfg = some DisplConfig.SHOW_ONLY_T <;> simp [step, caseMeasureRH, g, hRH]
  · intro hst
    have hs := sleepday_step_facts s hI hst c
    refine ⟨?_, ?_, hs.1, hs.2.1⟩
    · cases hd : s.dataShowEnd
      · simpa using (hs.2.2.2.1 hd).1
      · simpa using (hs.2.2.1 hd).1
    · obtain ⟨err, cfg, B, L, R, st, lc, lp, dse, inr, hlt⟩ := s
      simp only at hst hh
      subst hst hh
      cases dse <;> by_cases g : REFRESH_DATA_PERIOD < R <;> simp [step, caseSleepDay, g]
  · intro hst
    obtain ⟨err, cfg, B, L, R, st, lc, lp, dse, inr, hlt⟩ := s
    simp only at hst hh
    subst hst hh
    by_cases g : 100 ≤ L <;> cases lp <;>
      simp [step, caseCheckLight, g, hl, LIGHT_CHECK_PERIOD_eq]
  · intro hst
    obtain ⟨err, cfg, B, L, R, st, lc, lp, dse, inr, hlt⟩ := s
    simp only at hst hh
    subst hst hh
    by_cases g : 28800 ≤ B <;> simp [step, caseCheckBattery, g, BAT_CHECK_PERIOD_eq]
  · intro hst
    obtain ⟨err, cfg, B, L, R, st, lc, lp, dse, inr, hlt⟩ := s
    simp only at hst hh
    subst hst hh
    simp [step, caseCheckShowConfig]

theorem daylight_schedule (env : Nat → Collab) (hday : Daylight env) (n : Nat) :
    (run env (n + 1)).halted = false
    ∧ (n % 7 = 0 → (run env (n + 1)).fsm_state = fsm_enum.MeasureT ∧
        (run env (n + 1)).lightChkCnt = (2 * (n / 7)) % 100 ∧
        (run env (n + 1)).batCheckCnt = (2 * (n / 7)) % 28800)
    ∧ (n % 7 = 1 → (run env (n + 1)).fsm_state = fsm_enum.SleepDay ∧
        (run env (n + 1)).dataShowEnd = false ∧
        (run env (n + 1)).lightChkCnt = (2 * (n / 7)) % 100 ∧
        (run env (n + 1)).batCheckCnt = (2 * (n / 7)) % 28800)
    ∧ (n % 7 = 2 → (run env (n + 1)).fsm_state = fsm_enum.MeasureRH ∧
        (run env (n + 1)).lightChkCnt = (2 * (n / 7)) % 100 + 1 ∧
        (run env (n + 1)).batCheckCnt = (2 * (n / 7)) % 28800 + 1)
    ∧ (n % 7 = 3 → (run env (n + 1)).fsm_state = fsm_enum.SleepDay ∧
        (run env (n + 1)).dataShowEnd = true ∧
        (run env (n + 1)).lightChkCnt = (2 * (n / 7)) % 100 + 1 ∧
        (run env (n + 1)).batCheckCnt = (2 * (n / 7)) % 28800 + 1)
    ∧ (n % 7 = 4 → (run env (n + 1)).fsm_state = fsm_enum.CheckLight ∧
        (run env (n + 1)).lightChkCnt = (2 * (n / 7)) % 100 + 2 ∧
        (run env (n + 1)).batCheckCnt = (2 * (n / 7)) % 28800 + 2)
    ∧ (n % 7 = 5 → (run env (n + 1)).fsm_state = fsm_enum.CheckBattery ∧
        (run env (n + 1)).lightChkCnt = (2 * (n / 7) + 2) % 100 ∧
        (run env (n + 1)).batCheckCnt = (2 * (n / 7)) % 28800 + 2)
    ∧ (n % 7 = 6 → (run env (n + 1)).fsm_state = fsm_enum.CheckShowConfig ∧
        (run env (n + 1)).lightChkCnt = (2 * (n / 7) + 2) % 100 ∧
        (run env (n + 1)).batCheckCnt = (2 * (n / 7) + 2) % 28800) := by
  induction n with
  | zero => simp [run, init, step, casePowerUp]
  | succ k ih =>
    obtain ⟨ihh, i0, i1, i2, i3, i4, i5, i6⟩ := ih
    obtain ⟨hl, hT, hRH⟩ := hday (k + 1)
    obtain ⟨d0, d1, d2, d3, d4, d5, d6⟩ :=
      day_step_facts (env (k + 1)) (run env (k + 1)) (Inv_run env (k + 1)) ihh hl hT hRH
    rw [run_succ env (k + 1)]
    refine ⟨d0, ?_, ?_, ?_, ?_, ?_, ?_, ?_⟩
    · intro hm
      obtain ⟨a1, a2, a3⟩ := i6 (by omega)
      obtain ⟨b1, b2, b3⟩ := d6 a1
      exact ⟨b1, by omega, by omega⟩
    · intro hm
      obtain ⟨a1, a2, a3⟩ := i0 (by omega)
      obtain ⟨b1, b2, b3, b4⟩ := d1 a1
      exact ⟨b1, b2, by omega, by omega⟩
    · intro hm
      obtain ⟨a1, a2, a3, a4⟩ := i1 (by omega)
      obtain ⟨b1, b2, b3, b4⟩ := d3 a1
      rw [a2] at b1 b2
      exact ⟨by simpa using b1, by omega, by omega⟩
    · intro hm
      obtain ⟨a1, a2, a3⟩ := i2 (by omega)
      obtain ⟨b1, b2, b3, b4⟩ := d2 a1
      exact ⟨b1, b2, by omega, by omega⟩
    · intro hm
      obtain ⟨a1, a2, a3, a4⟩ := i3 (by omega)
      obtain ⟨b1, b2, b3, b4⟩ := d3 a1
      rw [a2] at b1 b2
      exact ⟨by simpa using b1, by omega, by omega⟩
    · intro hm
      obtain ⟨a1, a2, a3⟩ := i4 (by omega)
      obtain ⟨b1, b2, b3⟩ := d4 a1
      refine ⟨b1, ?_, by omega⟩
      rw [b2, a2]
      split_ifs <;> omega
    · intro hm
      obtain ⟨a1, a2, a3⟩ := i5 (by omega)
      obtain ⟨b1, b2, b3⟩ := d5 a1
      refine ⟨b1, by omega, ?_⟩
      rw [b3, a3]
      split_ifs <;> omega

/-! ## C12: the refresh period in daylight -/

/-- C12 (evaluation of the code in uninterrupted daylight): the MeasureT steps of
the first 156 iterations that compute REFRESH_VALUE are iterations 1, 78 and 155,
and 22 SleepDay steps (66 seconds of sleep cadence), not REFRESH_DATA_PERIOD = 20,
are executed between two consecutive ones. -/
theorem daylight_refresh_every_22_sleepdays :
    (List.range 156).filter (forcedRefreshAt dayEnv) = [1, 78, 155]
    ∧ sleepDaysSince dayEnv (forcedRefreshAt dayEnv) 78 = 22
    ∧ sleepDaysSince dayEnv (forcedRefreshAt dayEnv) 155 = 22
    ∧ REFRESH_DATA_PERIOD = 20 := by
  set_option maxRecDepth 1000000 in decide

/-! ## C13: the light and battery check periods in daylight -/

theorem lightRead_only_in_CheckLight (c : Collab) (s : MainState)
    (h : (step c s).2.any Event.isLightRead = true) :
    s.fsm_state = fsm_enum.CheckLight ∧ s.halted = false
    ∧ LIGHT_CHECK_PERIOD ≤ s.lightChkCnt := by
  obtain ⟨err, cfg, B, L, R, st, lc, lp, dse, inr, hlt⟩ := s
  cases hlt
  · cases st <;>
      simp only [step, casePowerUp, caseMeasureT, caseSleepDay, caseMeasureRH,
        caseCheckLight, caseCheckBattery, caseCheckShowConfig, caseSleepNight,
        Bool.false_eq_true, if_false] at h ⊢
    case CheckLight =>
      revert h
      by_cases hL : LIGHT_CHECK_PERIOD ≤ L <;> simp [hL]
    case CheckBattery =>
      revert h
      by_cases hB : BAT_CHECK_PERIOD ≤ B <;> simp [hB, Event.isLightRead]
    case MeasureT =>
      revert h
      by_cases h3 : cfg = some DisplConfig.SHOW_ONLY_RH <;>
        by_cases h4 : c.errT % 256 = 0 <;> simp [h3, h4, Event.isLightRead]
    case MeasureRH =>
      revert h
      by_cases h3 : cfg = some DisplConfig.SHOW_ONLY_T <;>
        by_cases h4 : c.errRH % 256 = 0 <;> simp [h3, h4, Event.isLightRead]
    all_goals simp [Event.isLightRead] at h
  · simp [step] at h

theorem testBattery_in_CheckBattery (c : Collab) (s : MainState)
    (hst : s.fsm_state = fsm_enum.CheckBattery) (hh : s.halted = false) :
    (step c s).2.any Event.isTestBattery = true ↔ BAT_CHECK_PERIOD ≤ s.batCheckCnt := by
  obtain ⟨err, cfg, B, L, R, st, lc, lp, dse, inr, hlt⟩ := s
  simp only at hst hh
  subst hst hh
  by_cases hB : BAT_CHECK_PERIOD ≤ B <;> simp [step, caseCheckBattery, hB, Event.isTestBattery]

theorem light_counter_frame (c : Collab) (s : MainState) (hI : Inv s)
    (hn : s.fsm_state ≠ fsm_enum.SleepNight) (hd : s.fsm_state ≠ fsm_enum.SleepDay) :
    (step c s).1.lightChkCnt =
      if (step c s).2.any Event.isLightRead = true then 0 else s.lightChkCnt := by
  obtain ⟨err, cfg, B, L, R, st, lc, lp, dse, inr, hlt⟩ := s
  cases hlt
  · cases st <;>
      simp only [step, casePowerUp, caseMeasureT, caseSleepDay, caseMeasureRH,
        caseCheckLight, caseCheckBattery, caseCheckShowConfig, caseSleepNight,
        Bool.false_eq_true, if_false]
    case CheckLight =>
      by_cases hL : LIGHT_CHECK_PERIOD ≤ L <;> cases hc : c.light <;> cases lp <;>
        simp [hL, hc, Event.isLightRead]
    case CheckBattery =>
      by_cases hB : BAT_CHECK_PERIOD ≤ B <;> simp [hB, Event.isLightRead]
    case MeasureT =>
      by_cases h3 : cfg = some DisplConfig.SHOW_ONLY_RH <;>
        by_cases h4 : c.errT % 256 = 0 <;> simp [h3, h4, Event.isLightRead]
    case MeasureRH =>
      by_cases h3 : cfg = some DisplConfig.SHOW_ONLY_T <;>
        by_cases h4 : c.errRH % 256 = 0 <;> simp [h3, h4, Event.isLightRead]
    case PowerUp =>
      simp [Inv, init] at hI
      simp [Event.isLightRead, hI]
    case SleepDay => simp at hd
    case SleepNight => simp at hn
    case CheckShowConfig => simp [Event.isLightRead]
  · simp [step]

theorem light_counter_step (c : Collab) (s : MainState) (hI : Inv s)
    (hn : s.fsm_state ≠ fsm_enum.SleepNight) :
    (step c s).1.lightChkCnt =
      if (step c s).2.any Event.isLightRead = true then 0
      else if s.fsm_state = fsm_enum.SleepDay ∧ s.halted = false then s.lightChkCnt + 1
      else s.lightChkCnt := by
  by_cases hd : s.fsm_state = fsm_enum.SleepDay
  · have hh : s.halted = false := not_halted_of_state s hI (by simp [hd]) (by simp [hd])
    have hs := sleepday_step_facts s hI hd c
    rw [hs.1, hs.2.2.2.2]
    simp [hd, hh, Event.isLightRead]
  · rw [light_counter_frame c s hI hn hd]
    simp [hd]

theorem battery_counter_frame (c : Collab) (s : MainState) (hI : Inv s)
    (hn : s.fsm_state ≠ fsm_enum.SleepNight) (hd : s.fsm_state ≠ fsm_enum.SleepDay) :
    (step c s).1.batCheckCnt =
      if (decide (s.fsm_state = fsm_enum.CheckBattery) &&
          (step c s).2.any Event.isTestBattery) = true then 0
      else s.batCheckCnt := by
  obtain ⟨err, cfg, B, L, R, st, lc, lp, dse, inr, hlt⟩ := s
  cases hlt
  · cases st <;>
      simp only [step, casePowerUp, caseMeasureT, caseSleepDay, caseMeasureRH,
        caseCheckLight, caseCheckBattery, caseCheckShowConfig, caseSleepNight,
        Bool.false_eq_true, if_false]
    case CheckLight =>
      by_cases hL : LIGHT_CHECK_PERIOD ≤ L <;> cases hc : c.light <;> cases lp <;>
        simp [hL, hc]
    case CheckBattery =>
      by_cases hB : BAT_CHECK_PERIOD ≤ B <;> simp [hB, Event.isTestBattery]
    case MeasureT =>
      by_cases h3 : cfg = some DisplConfig.SHOW_ONLY_RH <;>
        by_cases h4 : c.errT % 256 = 0 <;> simp [h3, h4]
    case MeasureRH =>
      by_cases h3 : cfg = some DisplConfig.SHOW_ONLY_T <;>
        by_cases h4 : c.errRH % 256 = 0 <;> simp [h3, h4]
    case PowerUp =>
      simp [Inv, init] at hI
      simp [hI]
    case SleepDay => simp at hd
    case SleepNight => simp at hn
    case CheckShowConfig => simp
  · simp [step]

theorem battery_counter_step (c : Collab) (s : MainState) (hI : Inv s)
    (hn : s.fsm_state ≠ fsm_enum.SleepNight) :
    (step c s).1.batCheckCnt =
      if (decide (s.fsm_state = fsm_enum.CheckBattery) &&
          (step c s).2.any Event.isTestBattery) = true then 0
      else if s.fsm_state = fsm_enum.SleepDay ∧ s.halted = false then s.batCheckCnt + 1
      else s.batCheckCnt := by
  by_cases hd : s.fsm_state = fsm_enum.SleepDay
  · have hh : s.halted = false := not_halted_of_state s hI (by simp [hd]) (by simp [hd])
    have hs := sleepday_step_facts s hI hd c
    rw [hs.2.1]
    simp [hd, hh]
  · rw [battery_counter_frame c s hI hn hd]
    simp [hd]

theorem daylight_not_night (env : Nat → Collab) (hday : Daylight env) (n : Nat) :
    (run env n).fsm_state ≠ fsm_enum.SleepNight := by
  cases n with
  | zero => simp [run, init]
  | succ k =>
    obtain ⟨-, i0, i1, i2, i3, i4, i5, i6⟩ := daylight_schedule env hday k
    have hk : k % 7 < 7 := Nat.mod_lt _ (by norm_num)
    interval_cases hm : k % 7
    · rw [(i0 rfl).1]; simp
    · rw [(i1 rfl).1]; simp
    · rw [(i2 rfl).1]; simp
    · rw [(i3 rfl).1]; simp
    · rw [(i4 rfl).1]; simp
    · rw [(i5 rfl).1]; simp
    · rw [(i6 rfl).1]; simp

theorem sleepDaysSince_light (env : Nat → Collab) (hday : Daylight env) (n : Nat) :
    sleepDaysSince env (lightReadAt env) n = (run env n).lightChkCnt := by
  induction n with
  | zero => rfl
  | succ k ih =>
    rw [run_succ, light_counter_step (env k) (run env k) (Inv_run env k)
      (daylight_not_night env hday k)]
    simp only [sleepDaysSince, lightReadAt, events, ih]

theorem sleepDaysSince_battery (env : Nat → Collab) (hday : Daylight env) (n : Nat) :
    sleepDaysSince env (batteryCheckAt env) n = (run env n).batCheckCnt := by
  induction n with
  | zero => rfl
  | succ k ih =>
    rw [run_succ, battery_counter_step (env k) (run env k) (Inv_run env k)
      (daylight_not_night env hday k)]
    simp only [sleepDaysSince, batteryCheckAt, events, ih]

theorem light_read_fires (env : Nat → Collab) (hday : Daylight env) (m : Nat)
    (hm : m % 7 = 4) (hq : (2 * (m / 7)) % 100 + 2 = 100) :
    lightReadAt env (m + 1) = true := by
  obtain ⟨hh, -, -, -, -, i4, -, -⟩ := daylight_schedule env hday m
  obtain ⟨a1, a2, -⟩ := i4 hm
  have hL : LIGHT_CHECK_PERIOD ≤ (run env (m + 1)).lightChkCnt := by
    rw [a2, LIGHT_CHECK_PERIOD_eq]; omega
  exact (checklight_step_facts (env (m + 1)) (run env (m + 1)) a1 hh).1.mpr hL

theorem battery_check_fires (env : Nat → Collab) (hday : Daylight env) (m : Nat)
    (hm : m % 7 = 5) (hq : (2 * (m / 7)) % 28800 + 2 = 28800) :
    batteryCheckAt env (m + 1) = true := by
  obtain ⟨hh, -, -, -, -, -, i5, -⟩ := daylight_schedule env hday m
  obtain ⟨a1, -, a3⟩ := i5 hm
  have hB : BAT_CHECK_PERIOD ≤ (run env (m + 1)).batCheckCnt := by
    rw [a3, BAT_CHECK_PERIOD_eq]; omega
  simp only [batteryCheckAt, events, Bool.and_eq_true, decide_eq_true_eq]
  exact ⟨a1, (testBattery_in_CheckBattery (env (m + 1)) (run env (m + 1)) a1 hh).mpr hB⟩

/-- C13: in uninterrupted daylight operation, whenever the ambient light is read
in CheckLight exactly LIGHT_CHECK_PERIOD = 100 SleepDay steps have been executed
since the previous read (since PowerUp for the first read), and whenever the
battery is tested in CheckBattery exactly BAT_CHECK_PERIOD = 28800 SleepDay steps
have been executed since the previous such test (since PowerUp for the first);
both checks do fire again and again: the light is read at the iterations
350 n + 348 and the battery is tested at the iterations 100800 n + 100799. -/
theorem daylight_check_periods (env : Nat → Collab) (hday : Daylight env) (n : Nat) :
    (lightReadAt env n = true →
        sleepDaysSince env (lightReadAt env) n = LIGHT_CHECK_PERIOD ∧ LIGHT_CHECK_PERIOD = 100)
    ∧ (batteryCheckAt env n = true →
        sleepDaysSince env (batteryCheckAt env) n = BAT_CHECK_PERIOD ∧ BAT_CHECK_PERIOD = 28800)
    ∧ lightReadAt env (350 * n + 348) = true
    ∧ batteryCheckAt env (100800 * n + 100799) = true := by
  have hb := Inv_bounds (run env n) (Inv_run env n)
  refine ⟨?_, ?_, ?_, ?_⟩
  · intro h
    have h1 := (lightRead_only_in_CheckLight (env n) (run env n) h).2.2
    rw [sleepDaysSince_light env hday n, LIGHT_CHECK_PERIOD_eq] at *
    omega
  · intro h
    simp only [batteryCheckAt, Bool.and_eq_true, decide_eq_true_eq] at h
    have hh : (run env n).halted = false :=
      not_halted_of_state _ (Inv_run env n) (by simp [h.1]) (by simp [h.1])
    have h1 := (testBattery_in_CheckBattery (env n) (run env n) h.1 hh).mp h.2
    rw [sleepDaysSince_battery env hday n, BAT_CHECK_PERIOD_eq] at *
    omega
  · have e : 350 * n + 348 = 350 * n + 347 + 1 := by omega
    rw [e]
    exact light_read_fires env hday _ (by omega) (by omega)
  · have e : 100800 * n + 100799 = 100800 * n + 100798 + 1 := by omega
    rw [e]
    exact battery_check_fires env hday _ (by omega) (by omega)

theorem daylight_check_periods_witness :
    Daylight dayEnv
    ∧ lightReadAt dayEnv 348 = true
    ∧ sleepDaysSince dayEnv (lightReadAt dayEnv) 348 = 100
    ∧ batteryCheckAt dayEnv 100799 = true
    ∧ sleepDaysSince dayEnv (batteryCheckAt dayEnv) 100799 = 28800 :=
  have hd : Daylight dayEnv := fun _ => ⟨rfl, rfl, rfl⟩
  have h0 := daylight_check_periods dayEnv hd 0
  have h1 := daylight_check_periods dayEnv hd 348
  have h2 := daylight_check_periods dayEnv hd 100799
  ⟨hd, h0.2.2.1, ((h1.1 h0.2.2.1).1).trans (h1.1 h0.2.2.1).2, h0.2.2.2,
    ((h2.2.1 h0.2.2.2).1).trans (h2.2.1 h0.2.2.2).2⟩

/-! ## C14: the period constants -/

/-- C14: with the compiled-in configuration the period macros evaluate to
LIGHT_CHECK_PERIOD = 100, BAT_CHECK_PERIOD = 28800 and REFRESH_DATA_PERIOD = 20;
each division by DISPLAY_TIME_S is exact, and every product, quotient and period
fits in 32 bits, so nothing is lost to truncation or wrap-around. -/
theorem period_constants :
    (LIGHT_CHECK_PERIOD = 100 ∧ BAT_CHECK_PERIOD = 28800 ∧ REFRESH_DATA_PERIOD = 20)
    ∧ ((LIGHT_CHECK_MIN * 60) % DISPLAY_TIME_S = 0
      ∧ (BAT_CHECK_HOURS * 60 * 60) % DISPLAY_TIME_S = 0
      ∧ REFRESH_DATA_S % DISPLAY_TIME_S = 0)
    ∧ (LIGHT_CHECK_PERIOD * DISPLAY_TIME_S = LIGHT_CHECK_MIN * 60
      ∧ BAT_CHECK_PERIOD * DISPLAY_TIME_S = BAT_CHECK_HOURS * 60 * 60
      ∧ REFRESH_DATA_PERIOD * DISPLAY_TIME_S = REFRESH_DATA_S)
    ∧ (LIGHT_CHECK_MIN * 60 < 2 ^ 32 ∧ BAT_CHECK_HOURS * 60 * 60 < 2 ^ 32
      ∧ LIGHT_CHECK_PERIOD < 2 ^ 32 ∧ BAT_CHECK_PERIOD < 2 ^ 32
      ∧ REFRESH_DATA_PERIOD < 2 ^ 32) := by
  norm_num [LIGHT_CHECK_PERIOD, BAT_CHECK_PERIOD, REFRESH_DATA_PERIOD, LIGHT_CHECK_MIN,
    BAT_CHECK_HOURS, REFRESH_DATA_S, DISPLAY_TIME_S]

/-! ## C15: the reset test in SleepDay agrees with the refresh test in MeasureT -/

theorem step_refresh_frame (c : Collab) (s : MainState)
    (h1 : s.fsm_state ≠ fsm_enum.SleepDay) (h2 : s.fsm_state ≠ fsm_enum.PowerUp) :
    (step c s).1.refreshDataCnt = s.refreshDataCnt := by
  obtain ⟨err, cfg, B, L, R, st, lc, lp, dse, inr, hlt⟩ := s
  cases hlt
  · cases st <;>
      simp only [step, casePowerUp, caseMeasureT, caseSleepDay, caseMeasureRH,
        caseCheckLight, caseCheckBattery, caseCheckShowConfig, caseSleepNight,
        Bool.false_eq_true, if_false]
    case CheckLight =>
      by_cases hL : LIGHT_CHECK_PERIOD ≤ L <;> cases hc : c.light <;> cases lp <;>
        simp [hL, hc]
    case CheckBattery => by_cases hB : BAT_CHECK_PERIOD ≤ B <;> simp [hB]
    case MeasureT =>
      by_cases h3 : cfg = some DisplConfig.SHOW_ONLY_RH <;>
        by_cases h4 : c.errT % 256 = 0 <;> simp [h3, h4]
    case MeasureRH =>
      by_cases h3 : cfg = some DisplConfig.SHOW_ONLY_T <;>
        by_cases h4 : c.errRH % 256 = 0 <;> simp [h3, h4]
    case SleepDay => simp at h1
    case PowerUp => simp at h2
    all_goals simp
  · simp [step]

theorem pred_of_second_SleepDay (c : Collab) (s : MainState) (hI : Inv s)
    (h1 : (step c s).1.fsm_state = fsm_enum.SleepDay)
    (h2 : (step c s).1.halted = false)
    (h3 : (step c s).1.dataShowEnd = true) :
    s.fsm_state = fsm_enum.MeasureRH ∧ s.halted = false := by
  obtain ⟨err, cfg, B, L, R, st, lc, lp, dse, inr, hlt⟩ := s
  cases hlt
  · cases st <;>
      simp only [step, casePowerUp, caseMeasureT, caseSleepDay, caseMeasureRH,
        caseCheckLight, caseCheckBattery, caseCheckShowConfig, caseSleepNight,
        Bool.false_eq_true, if_false] at h1 h2 h3 ⊢
    case CheckLight =>
      revert h1
      by_cases hL : LIGHT_CHECK_PERIOD ≤ L <;> cases hc : c.light <;> cases lp <;> simp [hL, hc]
    case SleepDay =>
      revert h1
      cases dse <;> by_cases hR : REFRESH_DATA_PERIOD < R <;> simp [hR]
    case MeasureT =>
      have hd : dse = false := by
        simp only [Inv] at hI
        exact hI.2.2.2.2.2.2.2.2.2.2
      subst hd
      revert h3
      by_cases h4 : cfg = some DisplConfig.SHOW_ONLY_RH <;>
        by_cases h5 : c.errT % 256 = 0 <;> simp [h4, h5]
    case MeasureRH => simp
    all_goals simp at h1
  · simp [step] at h2

/-- C15: every cycle-complete SleepDay step (iteration `n`, flag `dataShowEnd`
set) closes an outer cycle whose MeasureT ran at iteration `n - 3` (then SleepDay,
then MeasureRH); the refresh counter it sees is one more than the counter MeasureT
saw, so its strict test (counter > REFRESH_DATA_PERIOD) holds exactly when the
non-strict test of MeasureT (counter >= REFRESH_DATA_PERIOD) held, that is exactly
when MeasureT computed REFRESH_VALUE.  In a cycle that forced a refresh the
counter is reset (it is 1 after the step, the reset being followed by the
increment); in a cycle that used cached values it is not reset (it is the old
value plus 1). -/
theorem reset_iff_forced_refresh (env : Nat → Collab) (n : Nat)
    (hst : (run env n).fsm_state = fsm_enum.SleepDay)
    (hdse : (run env n).dataShowEnd = true) :
    ∃ k, n = k + 3
      ∧ (run env k).fsm_state = fsm_enum.MeasureT ∧ (run env k).halted = false
      ∧ (run env (k + 1)).fsm_state = fsm_enum.SleepDay
      ∧ (run env (k + 2)).fsm_state = fsm_enum.MeasureRH
      ∧ (run env n).refreshDataCnt = (run env k).refreshDataCnt + 1
      ∧ (REFRESH_DATA_PERIOD < (run env n).refreshDataCnt ↔
          REFRESH_DATA_PERIOD ≤ (run env k).refreshDataCnt)
      ∧ (REFRESH_DATA_PERIOD < (run env n).refreshDataCnt ↔
          refreshFlag (run env k).refreshDataCnt = ShowValueType.REFRESH_VALUE)
      ∧ (refreshFlag (run env k).refreshDataCnt = ShowValueType.REFRESH_VALUE →
          (run env (n + 1)).refreshDataCnt = 1)
      ∧ (refreshFlag (run env k).refreshDataCnt = ShowValueType.USE_OLD_VALUE →
          (run env (n + 1)).refreshDataCnt = (run env n).refreshDataCnt + 1) := by
  have hh : (run env n).halted = false :=
    not_halted_of_state _ (Inv_run env n) (by simp [hst]) (by simp [hst])
  match n, hst, hdse, hh with
  | 0, hst, _, _ => simp [run, init] at hst
  | 1, hst, _, _ => simp [run, init, step, casePowerUp] at hst
  | 2, _, hdse, _ =>
    simp [run, init, step, casePowerUp, caseMeasureT] at hdse
    split_ifs at hdse <;> simp at hdse
  | k + 3, hst, hdse, hh =>
    refine ⟨k, rfl, ?_⟩
    obtain ⟨a1, a2⟩ := pred_of_second_SleepDay (env (k + 2)) (run env (k + 2))
      (Inv_run env (k + 2)) hst hh hdse
    obtain ⟨b1, b2, b3, -⟩ := pred_of_MeasureRH (env (k + 1)) (run env (k + 1)) a1 a2
    obtain ⟨c1, c2, -, -⟩ := pred_of_first_SleepDay (env k) (run env k) b1 b3 b2
    have e3 : (run env (k + 3)).refreshDataCnt = (run env (k + 2)).refreshDataCnt :=
      step_refresh_frame (env (k + 2)) (run env (k + 2)) (by simp [a1]) (by simp [a1])
    have e2 : (run env (k + 2)).refreshDataCnt = (run env (k + 1)).refreshDataCnt + 1 :=
      ((sleepday_step_facts (run env (k + 1)) (Inv_run env (k + 1)) b1
        (env (k + 1))).2.2.2.1 b2).2
    have e1 : (run env (k + 1)).refreshDataCnt = (run env k).refreshDataCnt :=
      step_refresh_frame (env k) (run env k) (by simp [c1]) (by simp [c1])
    have e : (run env (k + 3)).refreshDataCnt = (run env k).refreshDataCnt + 1 := by
      rw [e3, e2, e1]
    have hnext := ((sleepday_step_facts (run env (k + 3)) (Inv_run env (k + 3)) hst
        (env (k + 3))).2.2.1 hdse).2
    have hnext2 : (run env (k + 3 + 1)).refreshDataCnt =
        (if REFRESH_DATA_PERIOD < (run env (k + 3)).refreshDataCnt then 0
          else (run env (k + 3)).refreshDataCnt) + 1 := hnext
    refine ⟨c1, c2, b1, a1, e, ?_, ?_, ?_, ?_⟩
    · rw [e]; omega
    · rw [e]; unfold refreshFlag
      split_ifs with hc
      · simp; omega
      · simp; omega
    · intro hf
      rw [hnext2, e]
      unfold refreshFlag at hf
      split_ifs at hf with hc
      rw [if_pos (by omega)]
    · intro hf
      rw [hnext2, e]
      unfold refreshFlag at hf
      split_ifs at hf with hc
      rw [if_neg (by omega)]

theorem reset_iff_forced_refresh_witness :
    (run dayEnv 4).fsm_state = fsm_enum.SleepDay
    ∧ (run dayEnv 4).dataShowEnd = true
    ∧ ∃ k, 4 = k + 3 ∧ (run dayEnv k).fsm_state = fsm_enum.MeasureT
      ∧ (run dayEnv 4).refreshDataCnt = (run dayEnv k).refreshDataCnt + 1 :=
  have h := reset_iff_forced_refresh dayEnv 4 (by decide) (by decide)
  ⟨by decide, by decide, h.imp (fun _ hk => ⟨hk.1, hk.2.1, hk.2.2.2.2.2.1⟩)⟩

/-! ## C16: bounds of the counters -/

/-- C16: in every reachable configuration the light counter is at most
LIGHT_CHECK_PERIOD, the battery counter at most BAT_CHECK_PERIOD and the refresh
counter at most REFRESH_DATA_PERIOD + 2; hence incrementing any of them stays
below 2^32 and the `% 2^32` of the increment is the plain successor. -/
theorem counters_bounded (env : Nat → Collab) (n : Nat) :
    (run env n).lightChkCnt ≤ LIGHT_CHECK_PERIOD
    ∧ (run env n).batCheckCnt ≤ BAT_CHECK_PERIOD
    ∧ (run env n).refreshDataCnt ≤ REFRESH_DATA_PERIOD + 2
    ∧ ((run env n).lightChkCnt + 1) % 2 ^ 32 = (run env n).lightChkCnt + 1
    ∧ ((run env n).batCheckCnt + 1) % 2 ^ 32 = (run env n).batCheckCnt + 1
    ∧ ((run env n).refreshDataCnt + 1) % 2 ^ 32 = (run env n).refreshDataCnt + 1 := by
  have h := Inv_bounds (run env n) (Inv_run env n)
  rw [LIGHT_CHECK_PERIOD_eq, BAT_CHECK_PERIOD_eq, REFRESH_DATA_PERIOD_eq]
  refine ⟨h.1, h.2.1, h.2.2, ?_, ?_, ?_⟩ <;> omega

/-! ## C17: the two light variables and the display enable/disable calls -/

theorem lcd_step_facts (c : Collab) (s : MainState) :
    (step c s).2.filterMap Event.lcdControlArg =
      if (step c s).1.lightPrevious ≠ s.lightPrevious then [(step c s).1.lightPrevious]
      else [] := by
  obtain ⟨err, cfg, B, L, R, st, lc, lp, dse, inr, hlt⟩ := s
  cases hlt
  · cases st <;>
      simp only [step, casePowerUp, caseMeasureT, caseSleepDay, caseMeasureRH,
        caseCheckLight, caseCheckBattery, caseCheckShowConfig, caseSleepNight,
        Bool.false_eq_true, if_false]
    case CheckLight =>
      by_cases hL : LIGHT_CHECK_PERIOD ≤ L <;> cases hc : c.light <;> cases lp <;>
        simp [hL, hc, Event.lcdControlArg]
    case SleepDay =>
      cases dse <;> by_cases hR : REFRESH_DATA_PERIOD < R <;>
        simp [hR, Event.lcdControlArg]
    case CheckBattery =>
      by_cases hB : BAT_CHECK_PERIOD ≤ B <;> simp [hB, Event.lcdControlArg]
    case MeasureT =>
      by_cases h1 : cfg = some DisplConfig.SHOW_ONLY_RH <;>
        by_cases h2 : c.errT % 256 = 0 <;> simp [h1, h2, Event.lcdControlArg]
    case MeasureRH =>
      by_cases h1 : cfg = some DisplConfig.SHOW_ONLY_T <;>
        by_cases h2 : c.errRH % 256 = 0 <;> simp [h1, h2, Event.lcdControlArg]
    all_goals simp [Event.lcdControlArg]
  · simp [step]

theorem alternating_snoc (l : List Bool) (b : Bool)
    (hl : l = (List.range l.length).map (fun i => decide (i % 2 = 1)))
    (hb : b = decide (l.length % 2 = 1)) :
    l ++ [b] = (List.range (l ++ [b]).length).map (fun i => decide (i % 2 = 1)) := by
  rw [List.length_append, List.length_singleton, List.range_succ, List.map_append, ← hl, hb]
  simp

theorem alternating_step (l ev : List Bool) (p q : Bool)
    (hl : l = (List.range l.length).map (fun i => decide (i % 2 = 1)))
    (hp : p = decide (l.length % 2 = 0))
    (hev : ev = if q ≠ p then [q] else []) :
    l ++ ev = (List.range (l ++ ev).length).map (fun i => decide (i % 2 = 1))
    ∧ q = decide ((l ++ ev).length % 2 = 0) := by
  by_cases hch : q ≠ p
  · rw [if_pos hch] at hev
    subst hev
    have hnew : q = decide (l.length % 2 = 1) := by
      rw [hp] at hch
      cases q <;> rcases Nat.mod_two_eq_zero_or_one l.length with hm | hm <;>
        simp [hm] at hch ⊢
    refine ⟨alternating_snoc l q hl hnew, ?_⟩
    rw [List.length_append, List.length_singleton, hnew]
    rcases Nat.mod_two_eq_zero_or_one l.length with hm | hm <;> simp [hm, Nat.add_mod]
  · rw [if_neg hch] at hev
    subst hev
    rw [List.append_nil]
    exact ⟨hl, (not_not.mp hch).trans hp⟩

theorem lcdCalls_alternate (env : Nat → Collab) (n : Nat) :
    lcdCalls env n = (List.range (lcdCalls env n).length).map (fun i => decide (i % 2 = 1))
    ∧ (run env n).lightPrevious = decide ((lcdCalls env n).length % 2 = 0) := by
  induction n with
  | zero => simp [lcdCalls, run, init]
  | succ k ih =>
    exact alternating_step (lcdCalls env k) _ (run env k).lightPrevious
      (step (env k) (run env k)).1.lightPrevious ih.1 ih.2
      (lcd_step_facts (env k) (run env k))

theorem Inv_light (s : MainState) (h : Inv s) :
    s.lightPrevious = s.lightCheck
    ∧ ((s.fsm_state = fsm_enum.CheckBattery ∨ s.fsm_state = fsm_enum.CheckShowConfig ∨
        s.fsm_state = fsm_enum.MeasureT ∨ s.fsm_state = fsm_enum.MeasureRH ∨
        s.fsm_state = fsm_enum.SleepDay ∨
        (s.fsm_state = fsm_enum.CheckLight ∧ s.lightChkCnt < LIGHT_CHECK_PERIOD)) →
      s.lightCheck = true) := by
  refine ⟨h.1, ?_⟩
  obtain ⟨err, cfg, B, L, R, st, lc, lp, dse, inr, hlt⟩ := s
  cases st <;> simp only [Inv] at h ⊢ <;> intro hx <;> simp at hx
  case CheckLight => exact h.2.2.2.2.2.2.2.2.2 hx
  case CheckBattery => exact h.2.2.2.2.2.2.2.2.2
  case CheckShowConfig => exact h.2.2.2.2.2.2.2.2.2
  case MeasureT => exact h.2.2.2.2.2.2.2.2.2.1
  case MeasureRH => exact h.2.2.2.2.2.2.2.2.2.1
  case SleepDay => exact h.2.2.2.1

/-- C17: at every state boundary `lightPrevious` equals `lightCheck`; whenever the
machine is in CheckBattery, CheckShowConfig, MeasureT, MeasureRH or SleepDay, or
in CheckLight with the light counter below LIGHT_CHECK_PERIOD, `lightCheck` is
true (light); and the `TRH_LCD_Control` calls made so far alternate strictly,
starting with a disable: the i-th call (counting from 0) has argument `true`
exactly when i is odd. -/
theorem light_variables_and_display_calls (env : Nat → Collab) (n : Nat) :
    (run env n).lightPrevious = (run env n).lightCheck
    ∧ (((run env n).fsm_state = fsm_enum.CheckBattery ∨
        (run env n).fsm_state = fsm_enum.CheckShowConfig ∨
        (run env n).fsm_state = fsm_enum.MeasureT ∨
        (run env n).fsm_state = fsm_enum.MeasureRH ∨
        (run env n).fsm_state = fsm_enum.SleepDay ∨
        ((run env n).fsm_state = fsm_enum.CheckLight ∧
          (run env n).lightChkCnt < LIGHT_CHECK_PERIOD)) →
      (run env n).lightCheck = true)
    ∧ lcdCalls env n =
        (List.range (lcdCalls env n).length).map (fun i => decide (i % 2 = 1)) :=
  ⟨(Inv_light _ (Inv_run env n)).1, (Inv_light _ (Inv_run env n)).2,
    (lcdCalls_alternate env n).1⟩

theorem light_variables_and_display_calls_witness :
    lcdCalls dawnEnv 400 = [false, true]
    ∧ (run dawnEnv 400).lightPrevious = (run dawnEnv 400).lightCheck :=
  have h := light_variables_and_display_calls dawnEnv 400
  ⟨by set_option maxRecDepth 1000000 in decide, h.1⟩

end TRH
